import Mathlib

/-!
# ID3v2.3 tag muxer: a shallow embedding of `gstid3v23mux.cc`

The element turns a GStreamer tag list into the frames of an ID3v2.3 tag.
The embedding follows the source function by function.  Calls into the
host libraries (GLib, GStreamer, id3lib) are modelled by small executable
definitions that record what the muxer hands to them:

* a `gchar*` string is the list of its bytes (without the final NUL);
* a `guint` is a natural number below `2 ^ 32`;
* a `GDate` is its day, month and year; as in GLib, the getters report the
  bad value for a date that is not valid as a whole;
* a `GstTagList` gives the values stored for a tag name; as in GStreamer, the
  typed getters return the values of a tag merged by its merge function;
* an `ID3_Frame` is the record of the values set on its fields;
* an `ID3_Tag` is the list of the frames added to it, in order.

The binary serialisation (`ID3_Tag::Size`, `ID3_Tag::Render`) belongs to
id3lib and is not part of the embedding: the render routine is modelled up
to the tag container it fills.
-/

namespace Id3v23Mux

/-! ## GLib: strings, formatting, dates -/

/-- A `gchar*` string: its bytes, the terminating NUL left out. -/
abbrev GString := List Nat

/-- The bytes of a string of ASCII characters. -/
def gstr (cs : List Char) : GString := cs.map Char.toNat

/-- The bytes of an ASCII string literal. -/
def ascii (s : String) : GString := gstr s.toList

/-- `g_ascii_tolower`: only `A`..`Z` are changed. -/
def g_ascii_tolower (c : Nat) : Nat :=
  if 65 ≤ c ∧ c ≤ 90 then c + 32 else c

/-- `g_ascii_strcasecmp`: walks both strings while neither has ended, comparing
the lowered bytes, and returns the difference of the bytes where it stopped
(the end of a string reads as the NUL byte). -/
def g_ascii_strcasecmp : GString → GString → Int
  | c1 :: s1, c2 :: s2 =>
    if c1 ≠ 0 ∧ c2 ≠ 0 then
      if g_ascii_tolower c1 ≠ g_ascii_tolower c2 then
        (g_ascii_tolower c1 : Int) - (g_ascii_tolower c2 : Int)
      else g_ascii_strcasecmp s1 s2
    else (c1 : Int) - (c2 : Int)
  | s1, s2 => (s1.headD 0 : Int) - (s2.headD 0 : Int)

/-- The conversion `%u`: the decimal digits of an unsigned number. -/
def fmt_u (n : Nat) : List Char := Nat.toDigits 10 n

/-- Padding of a converted number on the left up to the field width: with
zeros when the `0` flag was given, with blanks otherwise.  A number that is
already as wide as the field is left alone. -/
def fmt_pad (zero : Bool) (width : Nat) (ds : List Char) : List Char :=
  List.replicate (width - ds.length) (if zero then '0' else ' ') ++ ds

/-- Where the formatter is inside a format string: in plain text, right
after a `%`, or inside a conversion whose flag and width are being read. -/
inductive FmtState
  | text
  | percent
  | spec (zero : Bool) (width : Nat)
deriving DecidableEq, Repr

/-- The formatter behind `g_strdup_printf`, for the directives the muxer
uses: plain characters, `%%`, `%u` and `%0<width>u`.  The arguments are the
unsigned numbers still to be consumed.  A conversion with no argument left,
or a directive outside this set, ends the output. -/
def vprintf : FmtState → List Char → List Nat → List Char
  | _, [], _ => []
  | .text, c :: cs, args =>
    if c = '%' then vprintf .percent cs args else c :: vprintf .text cs args
  | .percent, c :: cs, args =>
    if c = '%' then '%' :: vprintf .text cs args
    else if c = '0' then vprintf (.spec true 0) cs args
    else if c.isDigit then vprintf (.spec false (c.toNat - 48)) cs args
    else if c = 'u' then
      match args with
      | a :: rest => fmt_u a ++ vprintf .text cs rest
      | [] => []
    else []
  | .spec zero width, c :: cs, args =>
    if c.isDigit then vprintf (.spec zero (width * 10 + (c.toNat - 48))) cs args
    else if c = 'u' then
      match args with
      | a :: rest => fmt_pad zero width (fmt_u a) ++ vprintf .text cs rest
      | [] => []
    else []

/-- `g_strdup_printf (format, ...)` with unsigned arguments. -/
def g_strdup_printf (format : List Char) (args : List Nat) : List Char :=
  vprintf .text format args

/-- A `GDate` in its day-month-year form: the `year`, `month` and `day`
fields of the structure (bit-fields of 16, 4 and 6 bits), as
`g_date_update_dmy` fills them for a date kept as a Julian day. -/
structure GDate where
  year : Nat
  month : Nat
  day : Nat
deriving DecidableEq, Repr

/-- `G_DATE_BAD_YEAR`. -/
def G_DATE_BAD_YEAR : Nat := 0
/-- `G_DATE_BAD_MONTH`. -/
def G_DATE_BAD_MONTH : Nat := 0
/-- `G_DATE_BAD_DAY`. -/
def G_DATE_BAD_DAY : Nat := 0

/-- `g_date_valid_year`. -/
def g_date_valid_year (y : Nat) : Bool := decide (y > G_DATE_BAD_YEAR)

/-- `g_date_valid_month`. -/
def g_date_valid_month (m : Nat) : Bool := decide (m > G_DATE_BAD_MONTH) && decide (m < 13)

/-- `g_date_valid_day`. -/
def g_date_valid_day (d : Nat) : Bool := decide (d > G_DATE_BAD_DAY) && decide (d < 32)

/-- `g_date_is_leap_year`. -/
def g_date_is_leap_year (year : Nat) : Bool :=
  (decide (year % 4 = 0) && decide (year % 100 ≠ 0)) || decide (year % 400 = 0)

/-- The table `days_in_months` of GLib; the entry 0 of a row is the error entry. -/
def days_in_months (leap : Bool) (m : Nat) : Nat :=
  if leap then [0, 31, 29, 31, 30, 31, 30, 31, 31, 30, 31, 30, 31].getD m 0
  else [0, 31, 28, 31, 30, 31, 30, 31, 31, 30, 31, 30, 31].getD m 0

/-- `g_date_valid_dmy`: the day, the month and the year form a date of the calendar. -/
def g_date_valid_dmy (d m y : Nat) : Bool :=
  decide (m > G_DATE_BAD_MONTH) && decide (m < 13) && decide (d > G_DATE_BAD_DAY)
    && decide (y > G_DATE_BAD_YEAR)
    && decide (d ≤ (if g_date_is_leap_year y then days_in_months true m
                    else days_in_months false m))

/-- `g_date_valid`: the flag GLib keeps on the date, which every setter sets
to `g_date_valid_dmy` of the three fields. -/
def g_date_valid (d : GDate) : Bool := g_date_valid_dmy d.day d.month d.year

/-- `g_date_get_year`: the bad year for a date that is not valid
(`g_return_val_if_fail (g_date_valid (d), G_DATE_BAD_YEAR)`). -/
def g_date_get_year (d : GDate) : Nat :=
  if ¬ g_date_valid d then G_DATE_BAD_YEAR else d.year
/-- `g_date_get_month`: the bad month for a date that is not valid. -/
def g_date_get_month (d : GDate) : Nat :=
  if ¬ g_date_valid d then G_DATE_BAD_MONTH else d.month
/-- `g_date_get_day`: the bad day for a date that is not valid. -/
def g_date_get_day (d : GDate) : Nat :=
  if ¬ g_date_valid d then G_DATE_BAD_DAY else d.day

/-! ### `g_convert` from UTF-8 to UTF-16BE -/

/-- The UTF-8 decoder of the converter, one byte at a time.  `need` is the
number of continuation bytes still expected, `acc` the code point gathered
so far, `lo` the smallest code point the current sequence may encode.  The
result is absent for a malformed, overlong, surrogate or out-of-range
sequence, and for input that ends inside a sequence. -/
def utf8_decode : List Nat → Nat → Nat → Nat → Option (List Nat)
  | [], need, _, _ => if need = 0 then some [] else none
  | b :: bs, 0, _, _ =>
    if b < 0x80 then (utf8_decode bs 0 0 0).map (fun cps => b :: cps)
    else if 0xC0 ≤ b ∧ b < 0xE0 then utf8_decode bs 1 (b - 0xC0) 0x80
    else if 0xE0 ≤ b ∧ b < 0xF0 then utf8_decode bs 2 (b - 0xE0) 0x800
    else if 0xF0 ≤ b ∧ b < 0xF8 then utf8_decode bs 3 (b - 0xF0) 0x10000
    else none
  | b :: bs, need + 1, acc, lo =>
    if 0x80 ≤ b ∧ b < 0xC0 then
      if need = 0 then
        if lo ≤ acc * 64 + (b - 0x80) ∧ acc * 64 + (b - 0x80) ≤ 0x10FFFF
            ∧ ¬ (0xD800 ≤ acc * 64 + (b - 0x80) ∧ acc * 64 + (b - 0x80) ≤ 0xDFFF) then
          (utf8_decode bs 0 0 0).map (fun cps => (acc * 64 + (b - 0x80)) :: cps)
        else none
      else utf8_decode bs need (acc * 64 + (b - 0x80)) lo
    else none

/-- The UTF-16BE bytes of one code point: two bytes in the basic plane, a
surrogate pair (four bytes) above it. -/
def utf16be_encode_cp (cp : Nat) : List Nat :=
  if cp < 0x10000 then [cp / 256, cp % 256]
  else
    [(0xD800 + (cp - 0x10000) / 1024) / 256, (0xD800 + (cp - 0x10000) / 1024) % 256,
     (0xDC00 + (cp - 0x10000) % 1024) / 256, (0xDC00 + (cp - 0x10000) % 1024) % 256]

/-- The call `g_convert (text, -1, "UTF-16BE", "UTF-8", NULL, &bytes_written, &error)`:
the converted bytes (their number is `bytes_written`), or absent when the
text is not valid UTF-8. -/
def g_convert (text : GString) : Option (List Nat) :=
  (utf8_decode text 0 0 0).map (fun cps => cps.flatMap utf16be_encode_cp)

/-! ## GStreamer: values, buffers, tag lists -/

/-- The value of a field of a `GstStructure`; only strings are ever read. -/
inductive GstFieldValue
  | string (s : GString)
  | other
deriving DecidableEq, Repr

/-- A `GstStructure`: a name (the media type, for the structure of a caps)
and named fields. -/
structure GstStructure where
  name : GString
  fields : List (GString × GstFieldValue)
deriving DecidableEq, Repr

/-- `gst_structure_get_name`. -/
def gst_structure_get_name (s : GstStructure) : GString := s.name

/-- `gst_structure_get_string`: the string held by the first field of that
name, absent when there is no such field or it is not a string. -/
def gst_structure_get_string (s : GstStructure) (fieldname : GString) : Option GString :=
  match s.fields.find? (fun f => f.1 = fieldname) with
  | some (_, .string v) => some v
  | _ => none

/-- A `GstCaps`: its structures. -/
abbrev GstCaps := List GstStructure

/-- `gst_caps_is_empty`. -/
def gst_caps_is_empty (caps : GstCaps) : Bool := caps.isEmpty

/-- `gst_caps_get_structure`. -/
def gst_caps_get_structure (caps : GstCaps) (index : Nat) : Option GstStructure := caps[index]?

/-- A `GstBuffer`: the bytes (`GST_BUFFER_DATA`, of length `GST_BUFFER_SIZE`)
and the caps (`GST_BUFFER_CAPS`, possibly `NULL`). -/
structure GstBuffer where
  data : List Nat
  caps : Option GstCaps
deriving DecidableEq, Repr

/-- `GST_BUFFER_SIZE`. -/
def GST_BUFFER_SIZE (b : GstBuffer) : Nat := b.data.length

/-- `GST_BUFFER_DATA`. -/
def GST_BUFFER_DATA (b : GstBuffer) : List Nat := b.data

/-- `GST_BUFFER_CAPS`. -/
def GST_BUFFER_CAPS (b : GstBuffer) : Option GstCaps := b.caps

/-- A `GValue` stored in a tag list. -/
inductive GValue
  | string (s : GString)
  | uint (n : Nat)
  | uint64 (n : Nat)
  | date (d : GDate)
  | buffer (b : GstBuffer)
  | double
deriving DecidableEq, Repr

/-- `gst_value_get_mini_object`, cast to a buffer: absent (`NULL`) for a
value that holds no buffer. -/
def gst_value_get_mini_object : GValue → Option GstBuffer
  | .buffer b => some b
  | _ => none

/-- The `GType` a tag name is registered with. -/
inductive GType
  | G_TYPE_INVALID
  | G_TYPE_STRING
  | G_TYPE_UINT
  | G_TYPE_UINT64
  | G_TYPE_DOUBLE
  | G_TYPE_DATE
  | GST_TYPE_DATE
  | GST_TYPE_BUFFER
deriving DecidableEq, Repr

def GST_TAG_TITLE : GString := ascii "title"
def GST_TAG_ARTIST : GString := ascii "artist"
def GST_TAG_ALBUM : GString := ascii "album"
def GST_TAG_GENRE : GString := ascii "genre"
def GST_TAG_DATE : GString := ascii "date"
def GST_TAG_TRACK_NUMBER : GString := ascii "track-number"
def GST_TAG_TRACK_COUNT : GString := ascii "track-count"
def GST_TAG_ALBUM_VOLUME_NUMBER : GString := ascii "album-disc-number"
def GST_TAG_ALBUM_VOLUME_COUNT : GString := ascii "album-disc-count"
def GST_TAG_IMAGE : GString := ascii "image"
def GST_TAG_PREVIEW_IMAGE : GString := ascii "preview-image"

/-- The merge functions the tags are registered with. -/
inductive GstTagMergeFunc
  | gst_tag_merge_use_first
  | gst_tag_merge_strings_with_comma
deriving DecidableEq, Repr

/-- The tags the host framework registers that matter here (`gst_tag_register`
with the name, the type and the merge function, `NULL` for none): the eleven
the muxer reads, and a few of other kinds that may sit in a tag list. -/
def gst_tag_registry : List (GString × GType × Option GstTagMergeFunc) :=
  [ (GST_TAG_TITLE, .G_TYPE_STRING, some .gst_tag_merge_strings_with_comma),
    (GST_TAG_ARTIST, .G_TYPE_STRING, some .gst_tag_merge_strings_with_comma),
    (GST_TAG_ALBUM, .G_TYPE_STRING, some .gst_tag_merge_strings_with_comma),
    (GST_TAG_GENRE, .G_TYPE_STRING, some .gst_tag_merge_strings_with_comma),
    (GST_TAG_DATE, .GST_TYPE_DATE, none),
    (GST_TAG_TRACK_NUMBER, .G_TYPE_UINT, some .gst_tag_merge_use_first),
    (GST_TAG_TRACK_COUNT, .G_TYPE_UINT, some .gst_tag_merge_use_first),
    (GST_TAG_ALBUM_VOLUME_NUMBER, .G_TYPE_UINT, some .gst_tag_merge_use_first),
    (GST_TAG_ALBUM_VOLUME_COUNT, .G_TYPE_UINT, some .gst_tag_merge_use_first),
    (GST_TAG_IMAGE, .GST_TYPE_BUFFER, some .gst_tag_merge_use_first),
    (GST_TAG_PREVIEW_IMAGE, .GST_TYPE_BUFFER, none),
    (ascii "comment", .G_TYPE_STRING, some .gst_tag_merge_use_first),
    (ascii "bitrate", .G_TYPE_UINT, none),
    (ascii "duration", .G_TYPE_UINT64, none),
    (ascii "replaygain-track-gain", .G_TYPE_DOUBLE, none) ]

/-- `gst_tag_get_type`: the registered type of a tag name (the invalid type
for a name that is not registered). -/
def gst_tag_get_type (tag : GString) : GType :=
  match gst_tag_registry.find? (fun e => e.1 = tag) with
  | some (_, t, _) => t
  | none => .G_TYPE_INVALID

/-- The merge function of a tag name (`gst_tag_lookup (tag)->merge_func`),
absent for `NULL` and for a name that is not registered. -/
def gst_tag_get_merge_func (tag : GString) : Option GstTagMergeFunc :=
  match gst_tag_registry.find? (fun e => e.1 = tag) with
  | some (_, _, f) => f
  | none => none

/-- A `GstTagList`: tag names, each with the values stored for it.  A tag
with one value holds the value itself, a tag with several holds them as a
list (`GST_TYPE_LIST`). -/
abbrev GstTagList := List (GString × List GValue)

/-- The values stored for a tag (none when the tag is not in the list). -/
def gst_tag_list_values : GstTagList → GString → List GValue
  | [], _ => []
  | (name, vs) :: rest, tag => if name = tag then vs else gst_tag_list_values rest tag

/-- `gst_tag_list_get_tag_size`. -/
def gst_tag_list_get_tag_size (tags : GstTagList) (tag : GString) : Nat :=
  (gst_tag_list_values tags tag).length

/-- `gst_tag_list_get_value_index`. -/
def gst_tag_list_get_value_index (tags : GstTagList) (tag : GString) (index : Nat) :
    Option GValue :=
  (gst_tag_list_values tags tag)[index]?

/-- `g_value_get_string`: absent (`NULL`) for a value that holds no string. -/
def g_value_get_string : GValue → Option GString
  | .string s => some s
  | _ => none

/-- `gst_tag_merge_use_first`: the first value of the list. -/
def gst_tag_merge_use_first (src : List GValue) : Option GValue := src[0]?

/-- `gst_tag_merge_strings_with_comma`: the string of the first value, and for
each further value the separator `, ` followed by its string.  (A `NULL`
string adds nothing; the separator is the one of the untranslated messages.) -/
def gst_tag_merge_strings_with_comma (src : List GValue) : GValue :=
  let str := ((src[0]?).bind g_value_get_string).getD []
  .string ((src.drop 1).foldl
    (fun str v => str ++ ascii ", " ++ (g_value_get_string v).getD []) str)

/-- `gst_tag_list_copy_value`: the value of the tag, absent when the tag is
not in the list; for a tag that holds several values, what the merge
function of the tag makes of them.  A tag registered without a merge
function never holds more than one value; the first one is taken. -/
def gst_tag_list_copy_value (tags : GstTagList) (tag : GString) : Option GValue :=
  match gst_tag_list_values tags tag with
  | [] => none
  | [v] => some v
  | v :: w :: vs =>
    match gst_tag_get_merge_func tag with
    | some .gst_tag_merge_strings_with_comma =>
      some (gst_tag_merge_strings_with_comma (v :: w :: vs))
    | some .gst_tag_merge_use_first => gst_tag_merge_use_first (v :: w :: vs)
    | none => some v

/-- `gst_tag_list_get_string`: the string `gst_tag_list_copy_value` gives for
the tag, so the merged string for a tag with several values; an empty string
counts as no value (the string returned is never empty). -/
def gst_tag_list_get_string (tags : GstTagList) (tag : GString) : Option GString :=
  match gst_tag_list_copy_value tags tag with
  | some (.string s) => if s = [] then none else some s
  | _ => none

/-- `gst_tag_list_get_uint`: the unsigned integer `gst_tag_list_copy_value`
gives for the tag. -/
def gst_tag_list_get_uint (tags : GstTagList) (tag : GString) : Option Nat :=
  match gst_tag_list_copy_value tags tag with
  | some (.uint n) => some n
  | _ => none

/-- `gst_tag_list_get_uint64`. -/
def gst_tag_list_get_uint64 (tags : GstTagList) (tag : GString) : Option Nat :=
  match gst_tag_list_copy_value tags tag with
  | some (.uint64 n) => some n
  | _ => none

/-- `gst_tag_list_get_date`. -/
def gst_tag_list_get_date (tags : GstTagList) (tag : GString) : Option GDate :=
  match gst_tag_list_copy_value tags tag with
  | some (.date d) => some d
  | _ => none

/-- The tag list without the entries of one tag. -/
def gst_tag_list_remove_tag (tags : GstTagList) (tag : GString) : GstTagList :=
  tags.filter (fun e => e.1 ≠ tag)

/-! ## id3lib: fields, frames, the tag container -/

/-- `ID3_FrameID`, the frames the muxer builds. -/
inductive ID3_FrameID
  | ID3FID_TITLE
  | ID3FID_ALBUM
  | ID3FID_LEADARTIST
  | ID3FID_CONTENTTYPE
  | ID3FID_TRACKNUM
  | ID3FID_PARTINSET
  | ID3FID_YEAR
  | ID3FID_DATE
  | ID3FID_PICTURE
deriving DecidableEq, Repr

/-- `ID3_FieldID`, the fields the muxer touches. -/
inductive ID3_FieldID
  | ID3FN_TEXTENC
  | ID3FN_TEXT
  | ID3FN_DESCRIPTION
  | ID3FN_IMAGEFORMAT
  | ID3FN_MIMETYPE
  | ID3FN_PICTURETYPE
  | ID3FN_DATA
deriving DecidableEq, Repr

/-- `ID3_TextEnc`. -/
inductive ID3_TextEnc
  | ID3TE_ISO8859_1
  | ID3TE_UTF16
  | ID3TE_UTF16BE
  | ID3TE_UTF8
deriving DecidableEq, Repr

/-- The integer value of a text encoding. -/
def ID3_TextEnc.val : ID3_TextEnc → Nat
  | .ID3TE_ISO8859_1 => 0
  | .ID3TE_UTF16 => 1
  | .ID3TE_UTF16BE => 2
  | .ID3TE_UTF8 => 3

/-- `ID3_PictureType`: the first picture types of the ID3v2 picture frame,
`$00` other, `$01` 32x32 pixels file icon (PNG only), `$02` other file icon,
`$03` cover (front), `$04` cover (back). -/
inductive ID3_PictureType
  | ID3PT_OTHER
  | ID3PT_PNG32ICON
  | ID3PT_OTHERICON
  | ID3PT_COVERFRONT
  | ID3PT_COVERBACK
deriving DecidableEq, Repr

/-- The integer value of a picture type. -/
def ID3_PictureType.val : ID3_PictureType → Nat
  | .ID3PT_OTHER => 0
  | .ID3PT_PNG32ICON => 1
  | .ID3PT_OTHERICON => 2
  | .ID3PT_COVERFRONT => 3
  | .ID3PT_COVERBACK => 4

/-- What was set on a field. -/
inductive ID3_FieldValue
  | unset
  | integer (n : Nat)
  | ascii (s : GString)
  | unicode (buf : List Nat)
  | binary (bytes : List Nat)
deriving DecidableEq, Repr

/-- An `ID3_Field`: its text encoding and its value. -/
structure ID3_Field where
  encoding : ID3_TextEnc
  value : ID3_FieldValue
deriving DecidableEq, Repr

/-- A field as a new frame holds it. -/
def ID3_Field.fresh : ID3_Field := ⟨.ID3TE_ISO8859_1, .unset⟩

/-- `ID3_Field::SetEncoding`. -/
def ID3_Field.SetEncoding (f : ID3_Field) (enc : ID3_TextEnc) : ID3_Field :=
  { f with encoding := enc }

/-- `ID3_Field::Set (uint32)`. -/
def ID3_Field.SetInteger (f : ID3_Field) (n : Nat) : ID3_Field :=
  { f with value := .integer n }

/-- `ID3_Field::Set (const char*)`. -/
def ID3_Field.SetASCII (f : ID3_Field) (s : GString) : ID3_Field :=
  { f with value := .ascii s }

/-- `ID3_Field::Set (const unicode_t*)`: the buffer handed over is recorded;
a `NULL` buffer leaves the field as it was. -/
def ID3_Field.SetUnicode (f : ID3_Field) (data : Option (List Nat)) : ID3_Field :=
  match data with
  | some buf => { f with value := .unicode buf }
  | none => f

/-- `ID3_Field::Set (const uchar*, size_t)`. -/
def ID3_Field.SetBinary (f : ID3_Field) (data : List Nat) (size : Nat) : ID3_Field :=
  { f with value := .binary (data.take size) }

/-- An `ID3_Frame`: its frame id and its fields. -/
structure ID3_Frame where
  id : ID3_FrameID
  textenc : ID3_Field
  text : ID3_Field
  description : ID3_Field
  imageformat : ID3_Field
  mimetype : ID3_Field
  picturetype : ID3_Field
  data : ID3_Field
deriving DecidableEq, Repr

/-- The call `new ID3_Frame (id)`. -/
def ID3_Frame.new (id : ID3_FrameID) : ID3_Frame :=
  ⟨id, .fresh, .fresh, .fresh, .fresh, .fresh, .fresh, .fresh⟩

/-- `ID3_Frame::GetField`. -/
def ID3_Frame.GetField (fr : ID3_Frame) : ID3_FieldID → ID3_Field
  | .ID3FN_TEXTENC => fr.textenc
  | .ID3FN_TEXT => fr.text
  | .ID3FN_DESCRIPTION => fr.description
  | .ID3FN_IMAGEFORMAT => fr.imageformat
  | .ID3FN_MIMETYPE => fr.mimetype
  | .ID3FN_PICTURETYPE => fr.picturetype
  | .ID3FN_DATA => fr.data

/-- The frame after a change made through the pointer `GetField` returned. -/
def ID3_Frame.withField (fr : ID3_Frame) (fid : ID3_FieldID) (f : ID3_Field) : ID3_Frame :=
  match fid with
  | .ID3FN_TEXTENC => { fr with textenc := f }
  | .ID3FN_TEXT => { fr with text := f }
  | .ID3FN_DESCRIPTION => { fr with description := f }
  | .ID3FN_IMAGEFORMAT => { fr with imageformat := f }
  | .ID3FN_MIMETYPE => { fr with mimetype := f }
  | .ID3FN_PICTURETYPE => { fr with picturetype := f }
  | .ID3FN_DATA => { fr with data := f }

/-- An `ID3_Tag`: the frames added to it, in order. -/
structure ID3_Tag where
  frames : List ID3_Frame
deriving DecidableEq, Repr

/-- The declaration `ID3_Tag tag;`. -/
def ID3_Tag.empty : ID3_Tag := ⟨[]⟩

/-- `ID3_Tag::AddFrame`. -/
def ID3_Tag.AddFrame (tag : ID3_Tag) (frame : ID3_Frame) : ID3_Tag :=
  ⟨tag.frames ++ [frame]⟩

/-! ## The muxer (`gstid3v23mux.cc`) -/

/-- The helper `TAG_ADD_FRAME (tag, frame)`: the frame is added unless it is `NULL`. -/
def TAG_ADD_FRAME (tag : ID3_Tag) (frame : Option ID3_Frame) : ID3_Tag :=
  match frame with
  | some f => tag.AddFrame f
  | none => tag

/-- `tags_utils_number_length`: the length of the `%u` rendering of the number. -/
def tags_utils_number_length (i : Nat) : Nat :=
  (g_strdup_printf "%u".toList [i]).length

/-- `tags_utils_utf8_to_utf16`: the converted text, grown by two bytes that are
both set to zero; absent when the conversion gave nothing. -/
def tags_utils_utf8_to_utf16 (text : GString) : Option (List Nat) :=
  match g_convert text with
  | none => none
  | some converted => some (converted ++ [0, 0])

/-- `tags_set_frame_field_to_unicode`: the field gets the UTF-16 encoding and
the converted text, and the text-encoding field of the frame is set to UTF-16. -/
def tags_set_frame_field_to_unicode (frame : ID3_Frame) (field_id : ID3_FieldID)
    (value : GString) : ID3_Frame :=
  let utf16 := tags_utils_utf8_to_utf16 value
  let field := frame.GetField field_id
  let frame := frame.withField field_id
    ((field.SetEncoding .ID3TE_UTF16).SetUnicode utf16)
  let encoding := frame.GetField .ID3FN_TEXTENC
  frame.withField .ID3FN_TEXTENC (encoding.SetInteger ID3_TextEnc.ID3TE_UTF16.val)

/-- `tags_text_to_frame`: a new frame whose text field is set from the string. -/
def tags_text_to_frame (value : GString) (id : ID3_FrameID) : ID3_Frame :=
  let frame := ID3_Frame.new id
  tags_set_frame_field_to_unicode frame .ID3FN_TEXT value

/-- `tags_tag_to_string`.  The pair is the state of the locals `value` and
`copied` after the `switch`; the 64-bit branch never assigns `copied`. -/
def tags_tag_to_string (tags : GstTagList) (tag : GString) : Option GString :=
  let type := gst_tag_get_type tag
  let state : Option GString × Bool :=
    match type with
    | .G_TYPE_STRING =>
      match gst_tag_list_get_string tags tag with
      | some v => (some v, true)
      | none => (none, false)
    | .G_TYPE_UINT =>
      match gst_tag_list_get_uint tags tag with
      | some tmp => (some (gstr (g_strdup_printf "%u".toList [tmp])), true)
      | none => (none, false)
    | .G_TYPE_UINT64 =>
      let _tmp := gst_tag_list_get_uint64 tags tag
      (none, false)
    | _ =>
      if type = .GST_TYPE_DATE ∨ type = .G_TYPE_DATE then
        match gst_tag_list_get_date tags tag with
        | some tmp => (some (gstr (g_strdup_printf "%u".toList [g_date_get_year tmp])), true)
        | none => (none, false)
      else (some [], true)
  if ¬ state.2 then none else state.1

/-- `tags_print_loop`: the string is built and dropped. -/
def tags_print_loop (tags : GstTagList) (tag : GString) : Unit :=
  let _value := tags_tag_to_string tags tag
  ()

/-- `tags_tag_to_date`. -/
def tags_tag_to_date (tags : GstTagList) (tag : GString) : Option GDate :=
  match gst_tag_list_get_date tags tag with
  | none => none
  | some tmp => some tmp

/-- `tags_tag_to_frame`. -/
def tags_tag_to_frame (tags : GstTagList) (tag : GString) (id : ID3_FrameID) :
    Option ID3_Frame :=
  match tags_tag_to_string tags tag with
  | none => none
  | some value => some (tags_text_to_frame value id)

/-- `tags_composed_tags_to_frame`. -/
def tags_composed_tags_to_frame (tags : GstTagList) (left right : GString)
    (id : ID3_FrameID) : ID3_Frame :=
  let left_value : Nat :=
    match gst_tag_list_get_uint tags left with
    | some v => v
    | none => 1
  match gst_tag_list_get_uint tags right with
  | none =>
    let as_string := g_strdup_printf "%u".toList [left_value]
    tags_text_to_frame (gstr as_string) id
  | some right_value =>
    let left_length := tags_utils_number_length left_value
    let right_length := tags_utils_number_length right_value
    let length := if left_length < right_length then right_length else left_length
    let format := g_strdup_printf "%%0%uu/%%0%uu".toList [length, length]
    let composed := g_strdup_printf format [left_value, right_value]
    tags_text_to_frame (gstr composed) id

/-- `tags_buffer_has_data`; the argument is absent for a `NULL` pointer, which
is not a buffer. -/
def tags_buffer_has_data (buffer : Option GstBuffer) : Bool :=
  match buffer with
  | none => false
  | some b =>
    decide (GST_BUFFER_SIZE b > 0)
      && (match GST_BUFFER_CAPS b with
          | none => false
          | some caps => !gst_caps_is_empty caps)

/-- `tags_image_tag_to_frame`. -/
def tags_image_tag_to_frame (tags : GstTagList) (tag : GString) (id : ID3_FrameID) :
    Option ID3_Frame :=
  match gst_tag_list_get_value_index tags tag 0 with
  | none => none
  | some value =>
    let image := gst_value_get_mini_object value
    if ¬ tags_buffer_has_data image then none
    else
      match image with
      | none => none
      | some img =>
        match (GST_BUFFER_CAPS img).bind (fun caps => gst_caps_get_structure caps 0) with
        | none => none
        | some strct =>
          let mime_type := gst_structure_get_name strct
          let image_format : Option GString :=
            if g_ascii_strcasecmp mime_type (ascii "image/png") = 0 then some (ascii "PNG")
            else if g_ascii_strcasecmp mime_type (ascii "image/jpeg") = 0 then some (ascii "JPG")
            else none
          match image_format with
          | none => none
          | some fmt =>
            let frame := ID3_Frame.new id
            let frame := frame.withField .ID3FN_IMAGEFORMAT
              ((frame.GetField .ID3FN_IMAGEFORMAT).SetASCII fmt)
            let frame := frame.withField .ID3FN_MIMETYPE
              ((frame.GetField .ID3FN_MIMETYPE).SetASCII mime_type)
            let frame := frame.withField .ID3FN_PICTURETYPE
              (if g_ascii_strcasecmp tag GST_TAG_PREVIEW_IMAGE = 0 then
                (frame.GetField .ID3FN_PICTURETYPE).SetInteger ID3_PictureType.ID3PT_OTHER.val
              else
                (frame.GetField .ID3FN_PICTURETYPE).SetInteger ID3_PictureType.ID3PT_PNG32ICON.val)
            let frame :=
              match gst_structure_get_string strct (ascii "image-description") with
              | some description =>
                tags_set_frame_field_to_unicode frame .ID3FN_DESCRIPTION description
              | none => frame
            some (frame.withField .ID3FN_DATA
              ((frame.GetField .ID3FN_DATA).SetBinary (GST_BUFFER_DATA img) (GST_BUFFER_SIZE img)))

/-- The year frame of `gst_id3v23_mux_render_tag`: built from `%04u` of the
year when there is a date and its year is not the bad year. -/
def render_frame_year (track_date : Option GDate) : Option ID3_Frame :=
  match track_date with
  | none => none
  | some d =>
    let year := g_date_get_year d
    if year ≠ G_DATE_BAD_YEAR then
      some (tags_text_to_frame (gstr (g_strdup_printf "%04u".toList [year])) .ID3FID_YEAR)
    else none

/-- The date frame of `gst_id3v23_mux_render_tag`: built from `%02u%02u` of the
day and the month when there is a date and neither of the two is bad. -/
def render_frame_date (track_date : Option GDate) : Option ID3_Frame :=
  match track_date with
  | none => none
  | some d =>
    let month := g_date_get_month d
    let day := g_date_get_day d
    if month ≠ G_DATE_BAD_MONTH ∧ day ≠ G_DATE_BAD_DAY then
      some (tags_text_to_frame (gstr (g_strdup_printf "%02u%02u".toList [day, month]))
        .ID3FID_DATE)
    else none

/-- `gst_id3v23_mux_render_tag`, up to the tag container it fills. -/
def gst_id3v23_mux_render_tag (tags : GstTagList) : ID3_Tag :=
  let title := tags_tag_to_frame tags GST_TAG_TITLE .ID3FID_TITLE
  let album := tags_tag_to_frame tags GST_TAG_ALBUM .ID3FID_ALBUM
  let artist := tags_tag_to_frame tags GST_TAG_ARTIST .ID3FID_LEADARTIST
  let genre := tags_tag_to_frame tags GST_TAG_GENRE .ID3FID_CONTENTTYPE
  let track_number : Option ID3_Frame := some (tags_composed_tags_to_frame tags
    GST_TAG_TRACK_NUMBER GST_TAG_TRACK_COUNT .ID3FID_TRACKNUM)
  let part_in_set : Option ID3_Frame := some (tags_composed_tags_to_frame tags
    GST_TAG_ALBUM_VOLUME_NUMBER GST_TAG_ALBUM_VOLUME_COUNT .ID3FID_PARTINSET)
  let track_date := tags_tag_to_date tags GST_TAG_DATE
  let frame_year := render_frame_year track_date
  let frame_date := render_frame_date track_date
  let image := tags_image_tag_to_frame tags GST_TAG_IMAGE .ID3FID_PICTURE
  let image_preview := tags_image_tag_to_frame tags GST_TAG_PREVIEW_IMAGE .ID3FID_PICTURE
  let tag := ID3_Tag.empty
  let tag := TAG_ADD_FRAME tag title
  let tag := TAG_ADD_FRAME tag artist
  let tag := TAG_ADD_FRAME tag album
  let tag := TAG_ADD_FRAME tag part_in_set
  let tag := TAG_ADD_FRAME tag track_number
  let tag := TAG_ADD_FRAME tag genre
  let tag := TAG_ADD_FRAME tag frame_year
  let tag := TAG_ADD_FRAME tag frame_date
  let tag := TAG_ADD_FRAME tag image
  let tag := TAG_ADD_FRAME tag image_preview
  tag

/-! ## Notions used to state the properties -/

/-- The decimal form of a number. -/
def decimal (n : Nat) : List Char := (Nat.repr n).toList

/-- The number of decimal digits of a number. -/
def digit_count (n : Nat) : Nat := (decimal n).length

/-- The decimal form of a number, with zeros in front up to the width `w`. -/
def zero_padded (w n : Nat) : List Char :=
  List.replicate (w - digit_count n) '0' ++ decimal n

/-- The UTF-16BE bytes of a text of ASCII characters. -/
def utf16be_of_ascii (cs : List Char) : List Nat := cs.flatMap (fun c => [0, c.toNat])

/-- The text frame with the given frame id whose text is the ASCII text `cs`:
the text field holds the UTF-16BE bytes of `cs` and the two closing zero
bytes, with the UTF-16 encoding, and the text-encoding field holds UTF-16. -/
def text_frame (id : ID3_FrameID) (cs : List Char) : ID3_Frame :=
  { id := id
    textenc := ⟨.ID3TE_ISO8859_1, .integer 1⟩
    text := ⟨.ID3TE_UTF16, .unicode (utf16be_of_ascii cs ++ [0, 0])⟩
    description := .fresh
    imageformat := .fresh
    mimetype := .fresh
    picturetype := .fresh
    data := .fresh }

/-- The width a run of digit characters denotes, read after the width `w`. -/
def read_width (w : Nat) (ds : List Char) : Nat :=
  ds.foldl (fun acc c => acc * 10 + (c.toNat - 48)) w

/-- The image a tag holds: the buffer of its first value and the first
structure of the caps of that buffer, when the value is a buffer that has
bytes and has caps with a structure. -/
def image_payload (tags : GstTagList) (tag : GString) : Option (GstBuffer × GstStructure) :=
  match gst_tag_list_get_value_index tags tag 0 with
  | some (.buffer b) =>
    match b.caps with
    | some (st :: _) => if 0 < b.data.length then some (b, st) else none
    | _ => none
  | _ => none

/-- The image-format code of a media type: `PNG` for `image/png`, `JPG` for
`image/jpeg` (compared without regard to ASCII case), none for any other. -/
def image_format (mime : GString) : Option GString :=
  if g_ascii_strcasecmp mime (ascii "image/png") = 0 then some (ascii "PNG")
  else if g_ascii_strcasecmp mime (ascii "image/jpeg") = 0 then some (ascii "JPG")
  else none

/-- The picture type the muxer gives to the picture frame of a tag. -/
def picture_type (tag : GString) : ID3_PictureType :=
  if g_ascii_strcasecmp tag GST_TAG_PREVIEW_IMAGE = 0 then .ID3PT_OTHER else .ID3PT_PNG32ICON

/-- The picture frame with the given image format, MIME type, picture type,
description (converted to UTF-16 when there is one) and image bytes. -/
def picture_frame (id : ID3_FrameID) (format mime : GString) (ptype : ID3_PictureType)
    (description : Option GString) (data : List Nat) : ID3_Frame :=
  { id := id
    textenc :=
      match description with
      | some _ => ⟨.ID3TE_ISO8859_1, .integer 1⟩
      | none => .fresh
    text := .fresh
    description :=
      match description with
      | some d =>
        match tags_utils_utf8_to_utf16 d with
        | some buf => ⟨.ID3TE_UTF16, .unicode buf⟩
        | none => ⟨.ID3TE_UTF16, .unset⟩
      | none => .fresh
    imageformat := ⟨.ID3TE_ISO8859_1, .ascii format⟩
    mimetype := ⟨.ID3TE_ISO8859_1, .ascii mime⟩
    picturetype := ⟨.ID3TE_ISO8859_1, .integer ptype.val⟩
    data := ⟨.ID3TE_ISO8859_1, .binary data⟩ }

/-- The number a run of decimal digit characters denotes. -/
def parse_decimal (cs : List Char) : Nat := read_width 0 cs

/-- A Unicode scalar value: a code point up to U+10FFFF that is no surrogate. -/
def is_scalar_value (cp : Nat) : Prop :=
  cp ≤ 0x10FFFF ∧ ¬ (0xD800 ≤ cp ∧ cp ≤ 0xDFFF)

instance (cp : Nat) : Decidable (is_scalar_value cp) := by
  unfold is_scalar_value
  exact inferInstance

/-- The UTF-8 bytes of one code point: one byte up to U+007F, two up to
U+07FF, three up to U+FFFF, four above. -/
def utf8_encode_cp (cp : Nat) : List Nat :=
  if cp < 0x80 then [cp]
  else if cp < 0x800 then [0xC0 + cp / 64, 0x80 + cp % 64]
  else if cp < 0x10000 then [0xE0 + cp / 4096, 0x80 + cp / 64 % 64, 0x80 + cp % 64]
  else [0xF0 + cp / 262144, 0x80 + cp / 4096 % 64, 0x80 + cp / 64 % 64, 0x80 + cp % 64]

/-- The text frame with the given frame id whose text got no value: the text
field has the UTF-16 encoding and is unset, and the text-encoding field
holds UTF-16. -/
def unset_text_frame (id : ID3_FrameID) : ID3_Frame :=
  { id := id
    textenc := ⟨.ID3TE_ISO8859_1, .integer 1⟩
    text := ⟨.ID3TE_UTF16, .unset⟩
    description := .fresh
    imageformat := .fresh
    mimetype := .fresh
    picturetype := .fresh
    data := .fresh }

/-! ## Decimal digits and the formatter -/

theorem digitChar_isDigit (d : Nat) (h : d < 10) : (Nat.digitChar d).isDigit = true := by
  interval_cases d <;> rfl

theorem digitChar_val (d : Nat) (h : d < 10) : (Nat.digitChar d).toNat - 48 = d := by
  interval_cases d <;> rfl

theorem digitChar_toNat (d : Nat) (h : d < 10) : (Nat.digitChar d).toNat = 48 + d := by
  interval_cases d <;> rfl

/-- With enough fuel the digit loop of the core library puts the digits of
`n`, most significant first, in front of the accumulator. -/
theorem toDigitsCore_eq_digits (n : Nat) : ∀ (fuel : Nat) (acc : List Char), 0 < n → n < fuel →
    Nat.toDigitsCore 10 fuel n acc = (Nat.digits 10 n).reverse.map Nat.digitChar ++ acc := by
  induction n using Nat.strongRecOn with
  | _ n ih =>
    intro fuel acc hpos hlt
    cases fuel with
    | zero => omega
    | succ f =>
      rw [Nat.toDigitsCore]
      rw [Nat.digits_def' (by decide) hpos]
      by_cases h10 : n / 10 = 0
      · simp [h10]
      · simp only [h10, if_false]
        rw [ih (n / 10) (by omega) f _ (by omega) (by omega)]
        simp

theorem fmt_u_eq_digits (n : Nat) (h : 0 < n) :
    fmt_u n = (Nat.digits 10 n).reverse.map Nat.digitChar := by
  unfold fmt_u Nat.toDigits
  rw [toDigitsCore_eq_digits n _ _ h (by omega)]
  simp

theorem fmt_u_zero : fmt_u 0 = ['0'] := by rfl

theorem fmt_u_digit (n : Nat) : ∀ c ∈ fmt_u n, ∃ d, d < 10 ∧ c = Nat.digitChar d := by
  intro c hc
  rcases Nat.eq_zero_or_pos n with h | h
  · subst h
    rw [fmt_u_zero] at hc
    simp at hc
    exact ⟨0, by decide, hc⟩
  · rw [fmt_u_eq_digits n h] at hc
    simp only [List.mem_map, List.mem_reverse] at hc
    obtain ⟨d, hd, rfl⟩ := hc
    exact ⟨d, Nat.digits_lt_base (by decide) hd, rfl⟩

theorem fmt_u_isDigit (n : Nat) : ∀ c ∈ fmt_u n, c.isDigit = true := by
  intro c hc
  obtain ⟨d, hd, rfl⟩ := fmt_u_digit n c hc
  exact digitChar_isDigit d hd

theorem fmt_u_ascii (n : Nat) : ∀ c ∈ fmt_u n, c.toNat < 128 := by
  intro c hc
  obtain ⟨d, hd, rfl⟩ := fmt_u_digit n c hc
  rw [digitChar_toNat d hd]
  omega

theorem read_width_digits (L : List Nat) (hL : ∀ d ∈ L, d < 10) :
    read_width 0 (L.reverse.map Nat.digitChar) = Nat.ofDigits 10 L := by
  induction L with
  | nil => rfl
  | cons d L ih =>
    have hd : d < 10 := hL d (List.mem_cons_self _ _)
    have ih' := ih (fun x hx => hL x (List.mem_cons_of_mem _ hx))
    unfold read_width at ih' ⊢
    simp only [List.reverse_cons, List.map_append, List.map_cons, List.map_nil,
      List.foldl_append, List.foldl_cons, List.foldl_nil]
    rw [ih', digitChar_val d hd, Nat.ofDigits_cons]
    ring

/-- Reading the `%u` rendering of a number back as a width gives the number. -/
theorem read_width_fmt_u (n : Nat) : read_width 0 (fmt_u n) = n := by
  rcases Nat.eq_zero_or_pos n with h | h
  · subst h; rfl
  · rw [fmt_u_eq_digits n h, read_width_digits _ (fun d hd => Nat.digits_lt_base (by decide) hd),
      Nat.ofDigits_digits]

/-- Inside a conversion, a run of digits followed by `u` is read as the width
and the next argument is written padded to it. -/
theorem vprintf_spec_digits (zero : Bool) (rest : List Char) (a : Nat) (args : List Nat) :
    ∀ (ds : List Char) (w : Nat), (∀ c ∈ ds, c.isDigit = true) →
      vprintf (.spec zero w) (ds ++ 'u' :: rest) (a :: args)
        = fmt_pad zero (read_width w ds) (fmt_u a) ++ vprintf .text rest args := by
  intro ds
  induction ds with
  | nil =>
    intro w _
    simp [vprintf, read_width]
  | cons c ds ih =>
    intro w h
    have hc : c.isDigit = true := h c (List.mem_cons_self _ _)
    simp only [List.cons_append, vprintf, hc, if_true]
    have := ih (w * 10 + (c.toNat - 48)) (fun x hx => h x (List.mem_cons_of_mem _ hx))
    simp only [List.append_eq] at this ⊢
    rw [this]
    simp [read_width]

theorem decimal_eq_fmt_u (n : Nat) : decimal n = fmt_u n := rfl

theorem number_length_eq (n : Nat) : tags_utils_number_length n = digit_count n := by
  simp [tags_utils_number_length, g_strdup_printf, vprintf, digit_count, decimal_eq_fmt_u]

theorem fmt_pad_zero_eq (w n : Nat) : fmt_pad true w (fmt_u n) = zero_padded w n := rfl

theorem decimal_ascii (n : Nat) : ∀ c ∈ decimal n, c.toNat < 128 := fmt_u_ascii n

theorem zero_padded_ascii (w n : Nat) : ∀ c ∈ zero_padded w n, c.toNat < 128 := by
  intro c hc
  simp only [zero_padded, List.mem_append, List.mem_replicate] at hc
  rcases hc with ⟨_, rfl⟩ | hc
  · decide
  · exact decimal_ascii n c hc

/-- The format the composed frame builds for the width `len`. -/
theorem composed_format (len : Nat) :
    g_strdup_printf "%%0%uu/%%0%uu".toList [len, len]
      = '%' :: '0' :: (fmt_u len ++ 'u' :: '/' :: '%' :: '0' :: (fmt_u len ++ ['u'])) := by
  simp [g_strdup_printf, vprintf]

/-- The text the composed frame builds from the width `len` and two numbers. -/
theorem composed_text (len a b : Nat) :
    g_strdup_printf (g_strdup_printf "%%0%uu/%%0%uu".toList [len, len]) [a, b]
      = zero_padded len a ++ '/' :: zero_padded len b := by
  rw [composed_format]
  simp only [g_strdup_printf]
  have h1 : vprintf .text
      ('%' :: '0' :: (fmt_u len ++ 'u' :: '/' :: '%' :: '0' :: (fmt_u len ++ ['u']))) [a, b]
      = vprintf (.spec true 0)
          (fmt_u len ++ 'u' :: '/' :: '%' :: '0' :: (fmt_u len ++ ['u'])) [a, b] := by
    simp [vprintf]
  rw [h1, vprintf_spec_digits _ _ _ _ _ _ (fmt_u_isDigit len), read_width_fmt_u]
  have h2 : vprintf .text ('/' :: '%' :: '0' :: (fmt_u len ++ ['u'])) [b]
      = '/' :: vprintf (.spec true 0) (fmt_u len ++ ['u']) [b] := by
    simp [vprintf]
  rw [h2, vprintf_spec_digits _ _ _ _ _ _ (fmt_u_isDigit len), read_width_fmt_u]
  simp [vprintf, fmt_pad_zero_eq]

/-! ## Text frames of ASCII text -/

theorem utf8_decode_ascii (cs : List Char) (h : ∀ c ∈ cs, c.toNat < 128) :
    utf8_decode (gstr cs) 0 0 0 = some (gstr cs) := by
  induction cs with
  | nil => rfl
  | cons c cs ih =>
    have hc := h c (List.mem_cons_self _ _)
    have ih' := ih (fun x hx => h x (List.mem_cons_of_mem _ hx))
    simp only [gstr, List.map_cons] at ih' ⊢
    simp [utf8_decode, hc, ih']

theorem g_convert_ascii (cs : List Char) (h : ∀ c ∈ cs, c.toNat < 128) :
    g_convert (gstr cs) = some (utf16be_of_ascii cs) := by
  simp only [g_convert, utf8_decode_ascii cs h, Option.map_some', Option.some.injEq]
  induction cs with
  | nil => rfl
  | cons c cs ih =>
    have hc := h c (List.mem_cons_self _ _)
    have ih' := ih (fun x hx => h x (List.mem_cons_of_mem _ hx))
    simp only [gstr, utf16be_of_ascii, List.map_cons, List.flatMap_cons] at ih' ⊢
    rw [ih']
    have h1 : c.toNat < 65536 := by omega
    simp [utf16be_encode_cp, h1]
    omega

/-- The frame `tags_text_to_frame` builds from an ASCII text. -/
theorem text_to_frame_ascii (cs : List Char) (id : ID3_FrameID) (h : ∀ c ∈ cs, c.toNat < 128) :
    tags_text_to_frame (gstr cs) id = text_frame id cs := by
  simp [tags_text_to_frame, tags_set_frame_field_to_unicode, tags_utils_utf8_to_utf16,
    g_convert_ascii cs h, text_frame, ID3_Frame.new, ID3_Frame.GetField, ID3_Frame.withField,
    ID3_Field.SetEncoding, ID3_Field.SetUnicode, ID3_Field.SetInteger, ID3_Field.fresh,
    ID3_TextEnc.val]

/-! ## Composed pairs -/

/-- C1. When the left and the right unsigned tags are both present, with values
`A` and `B`, the composed frame is the text frame of `A` and `B` in decimal,
each zero-padded to the larger of the two digit counts, with a `/` between. -/
theorem composed_both_present (tags : GstTagList) (left right : GString) (id : ID3_FrameID)
    (A B : Nat) (hl : gst_tag_list_get_uint tags left = some A)
    (hr : gst_tag_list_get_uint tags right = some B) :
    tags_composed_tags_to_frame tags left right id
      = text_frame id (zero_padded (max (digit_count A) (digit_count B)) A
          ++ '/' :: zero_padded (max (digit_count A) (digit_count B)) B) := by
  have hmax : (if digit_count A < digit_count B then digit_count B else digit_count A)
      = max (digit_count A) (digit_count B) := by
    split <;> omega
  simp only [tags_composed_tags_to_frame, hl, hr, number_length_eq, hmax, composed_text]
  apply text_to_frame_ascii
  intro c hc
  simp only [List.mem_append, List.mem_cons] at hc
  rcases hc with hc | rfl | hc
  · exact zero_padded_ascii _ _ c hc
  · decide
  · exact zero_padded_ascii _ _ c hc

/-- C1 at track 3 of 12: the text is `03/12`. -/
theorem composed_both_present_witness :
    tags_composed_tags_to_frame
        [(GST_TAG_TRACK_NUMBER, [.uint 3]), (GST_TAG_TRACK_COUNT, [.uint 12])]
        GST_TAG_TRACK_NUMBER GST_TAG_TRACK_COUNT .ID3FID_TRACKNUM
      = text_frame .ID3FID_TRACKNUM "03/12".toList :=
  (composed_both_present
    [(GST_TAG_TRACK_NUMBER, [.uint 3]), (GST_TAG_TRACK_COUNT, [.uint 12])]
    GST_TAG_TRACK_NUMBER GST_TAG_TRACK_COUNT .ID3FID_TRACKNUM 3 12
    (by decide) (by decide)).trans (by decide)

/-- C2. When the right tag is absent, the composed frame is the text frame of
the left value in plain decimal, which holds no `/`; when the left tag is
absent as well, its text is `1`. -/
theorem composed_right_absent (tags : GstTagList) (left right : GString) (id : ID3_FrameID)
    (hr : gst_tag_list_get_uint tags right = none) :
    (∀ A, gst_tag_list_get_uint tags left = some A →
        tags_composed_tags_to_frame tags left right id = text_frame id (decimal A)
          ∧ '/' ∉ decimal A)
      ∧ (gst_tag_list_get_uint tags left = none →
        tags_composed_tags_to_frame tags left right id = text_frame id ['1']) := by
  have key : ∀ n, tags_text_to_frame (gstr (g_strdup_printf "%u".toList [n])) id
      = text_frame id (decimal n) := by
    intro n
    have : g_strdup_printf "%u".toList [n] = decimal n := by
      simp [g_strdup_printf, vprintf, decimal_eq_fmt_u]
    rw [this]
    exact text_to_frame_ascii _ _ (decimal_ascii n)
  refine ⟨fun A hl => ⟨?_, ?_⟩, fun hl => ?_⟩
  · simp only [tags_composed_tags_to_frame, hl, hr, key]
  · intro hmem
    have := fmt_u_isDigit A _ hmem
    exact absurd this (by decide)
  · simp only [tags_composed_tags_to_frame, hl, hr, key]
    rfl

/-- C2 at track 7 with no track count, and with neither tag. -/
theorem composed_right_absent_witness :
    tags_composed_tags_to_frame [(GST_TAG_TRACK_NUMBER, [.uint 7])]
        GST_TAG_TRACK_NUMBER GST_TAG_TRACK_COUNT .ID3FID_TRACKNUM
      = text_frame .ID3FID_TRACKNUM "7".toList
    ∧ tags_composed_tags_to_frame [] GST_TAG_TRACK_NUMBER GST_TAG_TRACK_COUNT .ID3FID_TRACKNUM
      = text_frame .ID3FID_TRACKNUM "1".toList :=
  ⟨((composed_right_absent [(GST_TAG_TRACK_NUMBER, [.uint 7])]
      GST_TAG_TRACK_NUMBER GST_TAG_TRACK_COUNT .ID3FID_TRACKNUM (by decide)).1 7
      (by decide)).1,
   (composed_right_absent [] GST_TAG_TRACK_NUMBER GST_TAG_TRACK_COUNT .ID3FID_TRACKNUM
      (by decide)).2 (by decide)⟩

/-! ## The frames of a render -/

theorem render_tag_frames (tags : GstTagList) :
    (gst_id3v23_mux_render_tag tags).frames
      = List.reduceOption
          [ tags_tag_to_frame tags GST_TAG_TITLE .ID3FID_TITLE,
            tags_tag_to_frame tags GST_TAG_ARTIST .ID3FID_LEADARTIST,
            tags_tag_to_frame tags GST_TAG_ALBUM .ID3FID_ALBUM,
            some (tags_composed_tags_to_frame tags GST_TAG_ALBUM_VOLUME_NUMBER
              GST_TAG_ALBUM_VOLUME_COUNT .ID3FID_PARTINSET),
            some (tags_composed_tags_to_frame tags GST_TAG_TRACK_NUMBER
              GST_TAG_TRACK_COUNT .ID3FID_TRACKNUM),
            tags_tag_to_frame tags GST_TAG_GENRE .ID3FID_CONTENTTYPE,
            render_frame_year (tags_tag_to_date tags GST_TAG_DATE),
            render_frame_date (tags_tag_to_date tags GST_TAG_DATE),
            tags_image_tag_to_frame tags GST_TAG_IMAGE .ID3FID_PICTURE,
            tags_image_tag_to_frame tags GST_TAG_PREVIEW_IMAGE .ID3FID_PICTURE ] := by
  have add : ∀ (t : ID3_Tag) (o : Option ID3_Frame),
      (TAG_ADD_FRAME t o).frames = t.frames ++ o.toList := by
    intro t o
    cases o <;> simp [TAG_ADD_FRAME, ID3_Tag.AddFrame]
  have red : ∀ (o : Option ID3_Frame) (l : List (Option ID3_Frame)),
      List.reduceOption (o :: l) = o.toList ++ List.reduceOption l := by
    intro o l
    cases o <;> simp [List.reduceOption_cons_of_some, List.reduceOption_cons_of_none]
  simp only [gst_id3v23_mux_render_tag, add, red, ID3_Tag.empty, List.nil_append,
    List.append_assoc, List.reduceOption_nil, List.append_nil]

theorem text_to_frame_id (value : GString) (id : ID3_FrameID) :
    (tags_text_to_frame value id).id = id := by
  simp only [tags_text_to_frame, tags_set_frame_field_to_unicode, ID3_Frame.withField, ID3_Frame.new]

theorem tag_to_frame_id (tags : GstTagList) (tag : GString) (id : ID3_FrameID) (f : ID3_Frame)
    (h : tags_tag_to_frame tags tag id = some f) : f.id = id := by
  unfold tags_tag_to_frame at h
  split at h
  · exact absurd h (by simp)
  · simp only [Option.some.injEq] at h
    rw [← h]; exact text_to_frame_id _ _

theorem composed_id (tags : GstTagList) (left right : GString) (id : ID3_FrameID) :
    (tags_composed_tags_to_frame tags left right id).id = id := by
  simp only [tags_composed_tags_to_frame]
  split <;> exact text_to_frame_id _ _

theorem fmt_year (y : Nat) : g_strdup_printf "%04u".toList [y] = zero_padded 4 y := by
  simp [g_strdup_printf, vprintf, fmt_pad_zero_eq]

theorem fmt_day_month (d m : Nat) :
    g_strdup_printf "%02u%02u".toList [d, m] = zero_padded 2 d ++ zero_padded 2 m := by
  simp [g_strdup_printf, vprintf, fmt_pad_zero_eq]

theorem date_valid_fields (d : GDate) (h : g_date_valid d = true) :
    d.year ≠ 0 ∧ d.month ≠ 0 ∧ d.day ≠ 0 := by
  simp only [g_date_valid, g_date_valid_dmy, G_DATE_BAD_MONTH, G_DATE_BAD_DAY, G_DATE_BAD_YEAR,
    Bool.and_eq_true, decide_eq_true_eq] at h
  omega

theorem date_get_of_valid (d : GDate) (h : g_date_valid d = true) :
    g_date_get_year d = d.year ∧ g_date_get_month d = d.month ∧ g_date_get_day d = d.day := by
  simp [g_date_get_year, g_date_get_month, g_date_get_day, h]

theorem date_get_of_not_valid (d : GDate) (h : g_date_valid d = false) :
    g_date_get_year d = G_DATE_BAD_YEAR ∧ g_date_get_month d = G_DATE_BAD_MONTH
      ∧ g_date_get_day d = G_DATE_BAD_DAY := by
  simp [g_date_get_year, g_date_get_month, g_date_get_day, h]

/-- The year getter reports a year exactly for a valid date. -/
theorem date_get_year_ne_bad (d : GDate) :
    g_date_get_year d ≠ G_DATE_BAD_YEAR ↔ g_date_valid d = true := by
  cases h : g_date_valid d
  · simp [(date_get_of_not_valid d h).1]
  · have hf := date_valid_fields d h
    rw [(date_get_of_valid d h).1]
    simp only [G_DATE_BAD_YEAR, ne_eq, iff_true]
    exact hf.1

/-- The month and day getters report a month and a day exactly for a valid date. -/
theorem date_get_month_day_ne_bad (d : GDate) :
    (g_date_get_month d ≠ G_DATE_BAD_MONTH ∧ g_date_get_day d ≠ G_DATE_BAD_DAY)
      ↔ g_date_valid d = true := by
  cases h : g_date_valid d
  · simp [(date_get_of_not_valid d h).2.1]
  · have hf := date_valid_fields d h
    rw [(date_get_of_valid d h).2.1, (date_get_of_valid d h).2.2]
    simp only [G_DATE_BAD_MONTH, G_DATE_BAD_DAY, ne_eq, iff_true]
    exact ⟨hf.2.1, hf.2.2⟩

theorem render_frame_year_some (d : GDate) :
    render_frame_year (some d)
      = if g_date_valid d = true then some (text_frame .ID3FID_YEAR (zero_padded 4 d.year))
        else none := by
  cases h : g_date_valid d
  · simp [render_frame_year, (date_get_of_not_valid d h).1]
  · have hy : ¬ d.year = G_DATE_BAD_YEAR := (date_valid_fields d h).1
    simp only [render_frame_year, (date_get_of_valid d h).1, ne_eq, hy, not_false_eq_true,
      if_true, fmt_year]
    rw [text_to_frame_ascii _ _ (zero_padded_ascii 4 d.year)]

theorem render_frame_date_some (d : GDate) :
    render_frame_date (some d)
      = if g_date_valid d = true then
          some (text_frame .ID3FID_DATE (zero_padded 2 d.day ++ zero_padded 2 d.month))
        else none := by
  cases h : g_date_valid d
  · simp [render_frame_date, (date_get_of_not_valid d h).2.1]
  · have hm : ¬ d.month = G_DATE_BAD_MONTH := (date_valid_fields d h).2.1
    have hday : ¬ d.day = G_DATE_BAD_DAY := (date_valid_fields d h).2.2
    simp only [render_frame_date, (date_get_of_valid d h).2.1, (date_get_of_valid d h).2.2,
      ne_eq, hm, hday, not_false_eq_true, and_self, if_true, fmt_day_month]
    rw [text_to_frame_ascii]
    intro c hc
    rcases List.mem_append.mp hc with h | h
    · exact zero_padded_ascii _ _ c h
    · exact zero_padded_ascii _ _ c h

theorem frame_year_id (d : Option GDate) (f : ID3_Frame) (h : render_frame_year d = some f) :
    f.id = .ID3FID_YEAR := by
  cases d with
  | none => exact absurd h (by simp [render_frame_year])
  | some d =>
    rw [render_frame_year_some] at h
    split at h
    · simp only [Option.some.injEq] at h
      rw [← h]; rfl
    · exact absurd h (by simp)

theorem frame_date_id (d : Option GDate) (f : ID3_Frame) (h : render_frame_date d = some f) :
    f.id = .ID3FID_DATE := by
  cases d with
  | none => exact absurd h (by simp [render_frame_date])
  | some d =>
    rw [render_frame_date_some] at h
    split at h
    · simp only [Option.some.injEq] at h
      rw [← h]; rfl
    · exact absurd h (by simp)

theorem image_tag_to_frame_eq (tags : GstTagList) (tag : GString) (id : ID3_FrameID) :
    tags_image_tag_to_frame tags tag id
      = match image_payload tags tag with
        | none => none
        | some (b, st) =>
          match image_format st.name with
          | none => none
          | some fmt =>
            some (picture_frame id fmt st.name (picture_type tag)
              (gst_structure_get_string st (ascii "image-description")) b.data) := by
  unfold tags_image_tag_to_frame image_payload
  rcases hv : gst_tag_list_get_value_index tags tag 0 with _ | v
  · rfl
  · cases v with
    | buffer b =>
      obtain ⟨data, caps⟩ := b
      rcases caps with _ | caps
      · simp [gst_value_get_mini_object, tags_buffer_has_data, GST_BUFFER_CAPS]
      · rcases caps with _ | ⟨st, sts⟩
        · simp [gst_value_get_mini_object, tags_buffer_has_data, gst_caps_is_empty,
            GST_BUFFER_CAPS]
        · by_cases hd : 0 < data.length
          · have hhas : tags_buffer_has_data (some ⟨data, some (st :: sts)⟩) = true := by
              simp [tags_buffer_has_data, GST_BUFFER_SIZE, GST_BUFFER_CAPS, gst_caps_is_empty, hd]
            simp only [gst_value_get_mini_object, hhas, not_true_eq_false, if_false,
              GST_BUFFER_CAPS, Option.some_bind, gst_caps_get_structure,
              List.getElem?_cons_zero, hd, if_true, gst_structure_get_name]
            cases hf : image_format st.name with
            | none =>
              have hf' := hf
              unfold image_format at hf'
              rw [hf']
            | some fmt =>
              have hf' := hf
              unfold image_format at hf'
              rw [hf']
              cases hdesc : gst_structure_get_string st (ascii "image-description") <;>
              by_cases hp : g_ascii_strcasecmp tag GST_TAG_PREVIEW_IMAGE = 0 <;>
              simp [picture_frame, picture_type, ID3_Frame.new, ID3_Frame.withField,
                ID3_Frame.GetField, ID3_Field.SetASCII, ID3_Field.SetInteger,
                ID3_Field.SetBinary, ID3_Field.fresh, tags_set_frame_field_to_unicode,
                ID3_Field.SetEncoding, ID3_Field.SetUnicode, ID3_TextEnc.val, hp,
                GST_BUFFER_SIZE, GST_BUFFER_DATA]
          · simp [gst_value_get_mini_object, tags_buffer_has_data, GST_BUFFER_SIZE, hd]
    | _ => simp [gst_value_get_mini_object, tags_buffer_has_data]

theorem image_frame_id (tags : GstTagList) (tag : GString) (id : ID3_FrameID) (f : ID3_Frame)
    (h : tags_image_tag_to_frame tags tag id = some f) : f.id = id := by
  rw [image_tag_to_frame_eq] at h
  split at h
  · exact absurd h (by simp)
  · split at h
    · exact absurd h (by simp)
    · simp only [Option.some.injEq] at h
      rw [← h]; rfl

theorem image_frame_picturetype (tags : GstTagList) (tag : GString) (id : ID3_FrameID)
    (f : ID3_Frame) (h : tags_image_tag_to_frame tags tag id = some f) :
    f.picturetype = ⟨.ID3TE_ISO8859_1, .integer (picture_type tag).val⟩ := by
  rw [image_tag_to_frame_eq] at h
  split at h
  · exact absurd h (by simp)
  · split at h
    · exact absurd h (by simp)
    · simp only [Option.some.injEq] at h
      rw [← h]; rfl

theorem text_to_frame_picturetype (value : GString) (id : ID3_FrameID) :
    (tags_text_to_frame value id).picturetype = .fresh := by
  simp only [tags_text_to_frame, tags_set_frame_field_to_unicode, ID3_Frame.withField,
    ID3_Frame.new]

theorem values_nil_index (tags : GstTagList) (tag : GString)
    (h : gst_tag_list_values tags tag = []) (i : Nat) :
    gst_tag_list_get_value_index tags tag i = none := by
  simp [gst_tag_list_get_value_index, h]

theorem copy_value_nil (tags : GstTagList) (tag : GString)
    (h : gst_tag_list_values tags tag = []) : gst_tag_list_copy_value tags tag = none := by
  simp [gst_tag_list_copy_value, h]

/-- For a tag that is not merged with commas the value copied is the first one. -/
theorem copy_value_first (tags : GstTagList) (tag : GString)
    (h : gst_tag_get_merge_func tag ≠ some .gst_tag_merge_strings_with_comma) :
    gst_tag_list_copy_value tags tag = gst_tag_list_get_value_index tags tag 0 := by
  unfold gst_tag_list_copy_value gst_tag_list_get_value_index
  rcases hv : gst_tag_list_values tags tag with _ | ⟨v, _ | ⟨w, vs⟩⟩
  · rfl
  · rfl
  · rcases hm : gst_tag_get_merge_func tag with _ | m
    · rfl
    · cases m with
      | gst_tag_merge_use_first => rfl
      | gst_tag_merge_strings_with_comma => exact absurd hm h

theorem mem_render_frames (tags : GstTagList) (f : ID3_Frame) :
    f ∈ (gst_id3v23_mux_render_tag tags).frames ↔
      (tags_tag_to_frame tags GST_TAG_TITLE .ID3FID_TITLE = some f
        ∨ tags_tag_to_frame tags GST_TAG_ARTIST .ID3FID_LEADARTIST = some f
        ∨ tags_tag_to_frame tags GST_TAG_ALBUM .ID3FID_ALBUM = some f
        ∨ tags_composed_tags_to_frame tags GST_TAG_ALBUM_VOLUME_NUMBER
            GST_TAG_ALBUM_VOLUME_COUNT .ID3FID_PARTINSET = f
        ∨ tags_composed_tags_to_frame tags GST_TAG_TRACK_NUMBER
            GST_TAG_TRACK_COUNT .ID3FID_TRACKNUM = f
        ∨ tags_tag_to_frame tags GST_TAG_GENRE .ID3FID_CONTENTTYPE = some f
        ∨ render_frame_year (tags_tag_to_date tags GST_TAG_DATE) = some f
        ∨ render_frame_date (tags_tag_to_date tags GST_TAG_DATE) = some f
        ∨ tags_image_tag_to_frame tags GST_TAG_IMAGE .ID3FID_PICTURE = some f
        ∨ tags_image_tag_to_frame tags GST_TAG_PREVIEW_IMAGE .ID3FID_PICTURE = some f) := by
  rw [render_tag_frames, List.reduceOption_mem_iff]
  simp only [List.mem_cons, List.mem_singleton, Option.some.injEq, List.not_mem_nil, or_false]
  constructor <;> intro h <;>
    rcases h with h | h | h | h | h | h | h | h | h | h <;> simp [h]

/-- C3, as stated, fails: for the empty tag set the tag container is not left
without frames. -/
theorem render_empty_not_header_only : (gst_id3v23_mux_render_tag []).frames ≠ [] := by
  decide

/-- C3, amended. For the empty tag set the render attaches exactly two frames,
the part-in-set frame and the track frame, each with the text `1`; and for
every tag set, the title, artist, album, genre, year, date, image and
preview-image frames are omitted when their source tag is absent. -/
theorem render_empty_frames :
    (gst_id3v23_mux_render_tag []).frames
        = [text_frame .ID3FID_PARTINSET ['1'], text_frame .ID3FID_TRACKNUM ['1']]
      ∧ ∀ tags : GstTagList,
        (gst_tag_list_values tags GST_TAG_TITLE = [] →
            tags_tag_to_frame tags GST_TAG_TITLE .ID3FID_TITLE = none)
        ∧ (gst_tag_list_values tags GST_TAG_ARTIST = [] →
            tags_tag_to_frame tags GST_TAG_ARTIST .ID3FID_LEADARTIST = none)
        ∧ (gst_tag_list_values tags GST_TAG_ALBUM = [] →
            tags_tag_to_frame tags GST_TAG_ALBUM .ID3FID_ALBUM = none)
        ∧ (gst_tag_list_values tags GST_TAG_GENRE = [] →
            tags_tag_to_frame tags GST_TAG_GENRE .ID3FID_CONTENTTYPE = none)
        ∧ (gst_tag_list_values tags GST_TAG_DATE = [] →
            render_frame_year (tags_tag_to_date tags GST_TAG_DATE) = none
              ∧ render_frame_date (tags_tag_to_date tags GST_TAG_DATE) = none)
        ∧ (gst_tag_list_values tags GST_TAG_IMAGE = [] →
            tags_image_tag_to_frame tags GST_TAG_IMAGE .ID3FID_PICTURE = none)
        ∧ (gst_tag_list_values tags GST_TAG_PREVIEW_IMAGE = [] →
            tags_image_tag_to_frame tags GST_TAG_PREVIEW_IMAGE .ID3FID_PICTURE = none) := by
  refine ⟨by decide, fun tags => ?_⟩
  have text : ∀ tag id, gst_tag_get_type tag = .G_TYPE_STRING →
      gst_tag_list_values tags tag = [] → tags_tag_to_frame tags tag id = none := by
    intro tag id ht h
    simp [tags_tag_to_frame, tags_tag_to_string, ht, gst_tag_list_get_string,
      copy_value_nil tags tag h]
  have image : ∀ tag id, gst_tag_list_values tags tag = [] →
      tags_image_tag_to_frame tags tag id = none := by
    intro tag id h
    simp [tags_image_tag_to_frame, values_nil_index tags tag h]
  refine ⟨text _ _ (by decide), text _ _ (by decide), text _ _ (by decide),
    text _ _ (by decide), fun h => ?_, image _ _, image _ _⟩
  simp [tags_tag_to_date, gst_tag_list_get_date, copy_value_nil tags _ h,
    render_frame_year, render_frame_date]


theorem reduceOption_map_sublist {α β : Type} (key : α → β) :
    ∀ (os : List (Option α)) (ks : List β),
      List.Forall₂ (fun o k => ∀ f, o = some f → key f = k) os ks →
      ((List.reduceOption os).map key).Sublist ks := by
  intro os ks h
  induction h with
  | nil => simp
  | @cons o k os ks hok _ ih =>
    cases o with
    | none =>
      rw [List.reduceOption_cons_of_none]
      exact List.Sublist.cons _ ih
    | some a =>
      rw [List.reduceOption_cons_of_some, List.map_cons, hok a rfl]
      exact List.Sublist.cons₂ _ ih

/-- C4. The frames the render attaches are the non-absent ones among title,
artist, album, part in set, track, genre, year, date, image and preview
image, in that order; there are at most ten and no frame is attached twice. -/
theorem render_frames_in_order (tags : GstTagList) :
    (gst_id3v23_mux_render_tag tags).frames
        = List.reduceOption
          [ tags_tag_to_frame tags GST_TAG_TITLE .ID3FID_TITLE,
            tags_tag_to_frame tags GST_TAG_ARTIST .ID3FID_LEADARTIST,
            tags_tag_to_frame tags GST_TAG_ALBUM .ID3FID_ALBUM,
            some (tags_composed_tags_to_frame tags GST_TAG_ALBUM_VOLUME_NUMBER
              GST_TAG_ALBUM_VOLUME_COUNT .ID3FID_PARTINSET),
            some (tags_composed_tags_to_frame tags GST_TAG_TRACK_NUMBER
              GST_TAG_TRACK_COUNT .ID3FID_TRACKNUM),
            tags_tag_to_frame tags GST_TAG_GENRE .ID3FID_CONTENTTYPE,
            render_frame_year (tags_tag_to_date tags GST_TAG_DATE),
            render_frame_date (tags_tag_to_date tags GST_TAG_DATE),
            tags_image_tag_to_frame tags GST_TAG_IMAGE .ID3FID_PICTURE,
            tags_image_tag_to_frame tags GST_TAG_PREVIEW_IMAGE .ID3FID_PICTURE ]
      ∧ (gst_id3v23_mux_render_tag tags).frames.length ≤ 10
      ∧ (gst_id3v23_mux_render_tag tags).frames.Nodup := by
  refine ⟨render_tag_frames tags, ?_, ?_⟩
  · rw [render_tag_frames]
    exact (List.reduceOption_length_le _).trans (by simp)
  · rw [render_tag_frames]
    have hsub := reduceOption_map_sublist
      (fun f : ID3_Frame => (f.id, f.picturetype.value))
      [ tags_tag_to_frame tags GST_TAG_TITLE .ID3FID_TITLE,
        tags_tag_to_frame tags GST_TAG_ARTIST .ID3FID_LEADARTIST,
        tags_tag_to_frame tags GST_TAG_ALBUM .ID3FID_ALBUM,
        some (tags_composed_tags_to_frame tags GST_TAG_ALBUM_VOLUME_NUMBER
          GST_TAG_ALBUM_VOLUME_COUNT .ID3FID_PARTINSET),
        some (tags_composed_tags_to_frame tags GST_TAG_TRACK_NUMBER
          GST_TAG_TRACK_COUNT .ID3FID_TRACKNUM),
        tags_tag_to_frame tags GST_TAG_GENRE .ID3FID_CONTENTTYPE,
        render_frame_year (tags_tag_to_date tags GST_TAG_DATE),
        render_frame_date (tags_tag_to_date tags GST_TAG_DATE),
        tags_image_tag_to_frame tags GST_TAG_IMAGE .ID3FID_PICTURE,
        tags_image_tag_to_frame tags GST_TAG_PREVIEW_IMAGE .ID3FID_PICTURE ]
      [ (.ID3FID_TITLE, .unset), (.ID3FID_LEADARTIST, .unset), (.ID3FID_ALBUM, .unset),
        (.ID3FID_PARTINSET, .unset), (.ID3FID_TRACKNUM, .unset), (.ID3FID_CONTENTTYPE, .unset),
        (.ID3FID_YEAR, .unset), (.ID3FID_DATE, .unset),
        (.ID3FID_PICTURE, .integer 1), (.ID3FID_PICTURE, .integer 0) ]
    have htext : ∀ tag id f, tags_tag_to_frame tags tag id = some f →
        (f.id, f.picturetype.value) = (id, ID3_FieldValue.unset) := by
      intro tag id f h
      unfold tags_tag_to_frame at h
      split at h
      · exact absurd h (by simp)
      · simp only [Option.some.injEq] at h
        rw [← h, text_to_frame_id, text_to_frame_picturetype]; rfl
    have hcomp : ∀ l r id f, some (tags_composed_tags_to_frame tags l r id) = some f →
        (f.id, f.picturetype.value) = (id, ID3_FieldValue.unset) := by
      intro l r id f h
      simp only [Option.some.injEq] at h
      rw [← h, composed_id]
      simp only [tags_composed_tags_to_frame]
      split <;> rw [text_to_frame_picturetype] <;> rfl
    have hyear : ∀ f, render_frame_year (tags_tag_to_date tags GST_TAG_DATE) = some f →
        (f.id, f.picturetype.value) = (ID3_FrameID.ID3FID_YEAR, ID3_FieldValue.unset) := by
      intro f h
      cases hd : tags_tag_to_date tags GST_TAG_DATE with
      | none => rw [hd] at h; exact absurd h (by simp [render_frame_year])
      | some d =>
        rw [hd, render_frame_year_some] at h
        split at h
        · simp only [Option.some.injEq] at h
          rw [← h]; rfl
        · exact absurd h (by simp)
    have hdate : ∀ f, render_frame_date (tags_tag_to_date tags GST_TAG_DATE) = some f →
        (f.id, f.picturetype.value) = (ID3_FrameID.ID3FID_DATE, ID3_FieldValue.unset) := by
      intro f h
      cases hd : tags_tag_to_date tags GST_TAG_DATE with
      | none => rw [hd] at h; exact absurd h (by simp [render_frame_date])
      | some d =>
        rw [hd, render_frame_date_some] at h
        split at h
        · simp only [Option.some.injEq] at h
          rw [← h]; rfl
        · exact absurd h (by simp)
    have himg : ∀ tag f, tags_image_tag_to_frame tags tag .ID3FID_PICTURE = some f →
        (f.id, f.picturetype.value)
          = (ID3_FrameID.ID3FID_PICTURE, ID3_FieldValue.integer (picture_type tag).val) := by
      intro tag f h
      rw [image_frame_id tags tag _ f h, image_frame_picturetype tags tag _ f h]
    have hkeys := hsub
      (List.Forall₂.cons (htext _ _) <| List.Forall₂.cons (htext _ _) <|
        List.Forall₂.cons (htext _ _) <| List.Forall₂.cons (hcomp _ _ _) <|
        List.Forall₂.cons (hcomp _ _ _) <| List.Forall₂.cons (htext _ _) <|
        List.Forall₂.cons hyear <| List.Forall₂.cons hdate <|
        List.Forall₂.cons (himg GST_TAG_IMAGE) <|
        List.Forall₂.cons (himg GST_TAG_PREVIEW_IMAGE) List.Forall₂.nil)
    exact List.Nodup.of_map _ (List.Nodup.sublist hkeys (by decide))

theorem frames_with_year_id (tags : GstTagList) (f : ID3_Frame) :
    (f ∈ (gst_id3v23_mux_render_tag tags).frames ∧ f.id = .ID3FID_YEAR)
      ↔ render_frame_year (tags_tag_to_date tags GST_TAG_DATE) = some f := by
  rw [mem_render_frames]
  constructor
  · rintro ⟨h | h | h | h | h | h | h | h | h | h, hid⟩
    · have := tag_to_frame_id _ _ _ _ h; rw [hid] at this; exact absurd this (by decide)
    · have := tag_to_frame_id _ _ _ _ h; rw [hid] at this; exact absurd this (by decide)
    · have := tag_to_frame_id _ _ _ _ h; rw [hid] at this; exact absurd this (by decide)
    · have := composed_id tags GST_TAG_ALBUM_VOLUME_NUMBER GST_TAG_ALBUM_VOLUME_COUNT
        .ID3FID_PARTINSET
      rw [h, hid] at this; exact absurd this (by decide)
    · have := composed_id tags GST_TAG_TRACK_NUMBER GST_TAG_TRACK_COUNT .ID3FID_TRACKNUM
      rw [h, hid] at this; exact absurd this (by decide)
    · have := tag_to_frame_id _ _ _ _ h; rw [hid] at this; exact absurd this (by decide)
    · exact h
    · have := frame_date_id _ _ h; rw [hid] at this; exact absurd this (by decide)
    · have := image_frame_id _ _ _ _ h; rw [hid] at this; exact absurd this (by decide)
    · have := image_frame_id _ _ _ _ h; rw [hid] at this; exact absurd this (by decide)
  · intro h
    exact ⟨by simp [h], frame_year_id _ _ h⟩

theorem frames_with_date_id (tags : GstTagList) (f : ID3_Frame) :
    (f ∈ (gst_id3v23_mux_render_tag tags).frames ∧ f.id = .ID3FID_DATE)
      ↔ render_frame_date (tags_tag_to_date tags GST_TAG_DATE) = some f := by
  rw [mem_render_frames]
  constructor
  · rintro ⟨h | h | h | h | h | h | h | h | h | h, hid⟩
    · have := tag_to_frame_id _ _ _ _ h; rw [hid] at this; exact absurd this (by decide)
    · have := tag_to_frame_id _ _ _ _ h; rw [hid] at this; exact absurd this (by decide)
    · have := tag_to_frame_id _ _ _ _ h; rw [hid] at this; exact absurd this (by decide)
    · have := composed_id tags GST_TAG_ALBUM_VOLUME_NUMBER GST_TAG_ALBUM_VOLUME_COUNT
        .ID3FID_PARTINSET
      rw [h, hid] at this; exact absurd this (by decide)
    · have := composed_id tags GST_TAG_TRACK_NUMBER GST_TAG_TRACK_COUNT .ID3FID_TRACKNUM
      rw [h, hid] at this; exact absurd this (by decide)
    · have := tag_to_frame_id _ _ _ _ h; rw [hid] at this; exact absurd this (by decide)
    · have := frame_year_id _ _ h; rw [hid] at this; exact absurd this (by decide)
    · exact h
    · have := image_frame_id _ _ _ _ h; rw [hid] at this; exact absurd this (by decide)
    · have := image_frame_id _ _ _ _ h; rw [hid] at this; exact absurd this (by decide)
  · intro h
    exact ⟨by simp [h], frame_date_id _ _ h⟩

theorem frames_with_picture_id (tags : GstTagList) (f : ID3_Frame) :
    (f ∈ (gst_id3v23_mux_render_tag tags).frames ∧ f.id = .ID3FID_PICTURE)
      ↔ (tags_image_tag_to_frame tags GST_TAG_IMAGE .ID3FID_PICTURE = some f
          ∨ tags_image_tag_to_frame tags GST_TAG_PREVIEW_IMAGE .ID3FID_PICTURE = some f) := by
  rw [mem_render_frames]
  constructor
  · rintro ⟨h | h | h | h | h | h | h | h | h | h, hid⟩
    · have := tag_to_frame_id _ _ _ _ h; rw [hid] at this; exact absurd this (by decide)
    · have := tag_to_frame_id _ _ _ _ h; rw [hid] at this; exact absurd this (by decide)
    · have := tag_to_frame_id _ _ _ _ h; rw [hid] at this; exact absurd this (by decide)
    · have := composed_id tags GST_TAG_ALBUM_VOLUME_NUMBER GST_TAG_ALBUM_VOLUME_COUNT
        .ID3FID_PARTINSET
      rw [h, hid] at this; exact absurd this (by decide)
    · have := composed_id tags GST_TAG_TRACK_NUMBER GST_TAG_TRACK_COUNT .ID3FID_TRACKNUM
      rw [h, hid] at this; exact absurd this (by decide)
    · have := tag_to_frame_id _ _ _ _ h; rw [hid] at this; exact absurd this (by decide)
    · have := frame_year_id _ _ h; rw [hid] at this; exact absurd this (by decide)
    · have := frame_date_id _ _ h; rw [hid] at this; exact absurd this (by decide)
    · exact Or.inl h
    · exact Or.inr h
  · rintro (h | h)
    · exact ⟨by simp [h], image_frame_id _ _ _ _ h⟩
    · exact ⟨by simp [h], image_frame_id _ _ _ _ h⟩

/-- The date `tags_tag_to_date` finds when the first value of the date tag is a date. -/
theorem tag_to_date_of_values (tags : GstTagList) (d : GDate) (vs : List GValue)
    (h : gst_tag_list_values tags GST_TAG_DATE = .date d :: vs) :
    tags_tag_to_date tags GST_TAG_DATE = some d := by
  have hc : gst_tag_list_copy_value tags GST_TAG_DATE = some (.date d) := by
    rw [copy_value_first tags GST_TAG_DATE (by decide)]
    simp [gst_tag_list_get_value_index, h]
  simp [tags_tag_to_date, gst_tag_list_get_date, hc]

theorem year_frame_iff_valid (tags : GstTagList) (d : GDate)
    (hd : tags_tag_to_date tags GST_TAG_DATE = some d) :
    (∃ f ∈ (gst_id3v23_mux_render_tag tags).frames, f.id = .ID3FID_YEAR)
      ↔ g_date_valid d = true := by
  constructor
  · rintro ⟨f, hf, hid⟩
    have h := (frames_with_year_id tags f).1 ⟨hf, hid⟩
    rw [hd, render_frame_year_some] at h
    by_contra hv
    simp [hv] at h
  · intro hv
    have h := (frames_with_year_id tags (text_frame .ID3FID_YEAR (zero_padded 4 d.year))).2
      (by rw [hd, render_frame_year_some]; simp [hv])
    exact ⟨_, h.1, h.2⟩

theorem date_frame_iff_valid (tags : GstTagList) (d : GDate)
    (hd : tags_tag_to_date tags GST_TAG_DATE = some d) :
    (∃ f ∈ (gst_id3v23_mux_render_tag tags).frames, f.id = .ID3FID_DATE)
      ↔ g_date_valid d = true := by
  constructor
  · rintro ⟨f, hf, hid⟩
    have h := (frames_with_date_id tags f).1 ⟨hf, hid⟩
    rw [hd, render_frame_date_some] at h
    by_contra hv
    simp [hv] at h
  · intro hv
    have h := (frames_with_date_id tags
      (text_frame .ID3FID_DATE (zero_padded 2 d.day ++ zero_padded 2 d.month))).2
      (by rw [hd, render_frame_date_some]; simp [hv])
    exact ⟨_, h.1, h.2⟩

/-- C6, as stated, fails: for a date tag whose date has no valid year and has
a valid month (3) and a valid day (15), the render attaches no date frame,
where the claim asks for one. -/
theorem bad_year_no_date_frame :
    g_date_valid_year 0 = false ∧ g_date_valid_month 3 = true ∧ g_date_valid_day 15 = true
      ∧ gst_tag_list_values [(GST_TAG_DATE, [.date ⟨0, 3, 15⟩])] GST_TAG_DATE
          = [.date ⟨0, 3, 15⟩]
      ∧ g_date_get_month ⟨0, 3, 15⟩ = G_DATE_BAD_MONTH
      ∧ g_date_get_day ⟨0, 3, 15⟩ = G_DATE_BAD_DAY
      ∧ ¬ ∃ f ∈ (gst_id3v23_mux_render_tag [(GST_TAG_DATE, [.date ⟨0, 3, 15⟩])]).frames,
            f.id = .ID3FID_DATE := by
  decide

/-- C6, amended. When the tag set holds a date under the date tag, the render
attaches a year frame exactly when `g_date_get_year` reports a year, and a
date frame exactly when `g_date_get_month` and `g_date_get_day` report a month
and a day.  The three getters report the bad value unless the whole date is
valid, so both conditions hold exactly for a valid date: the two frames are
attached together or not at all, and a date without a valid year gives
neither frame, whatever its month and day.  Without a date tag neither frame
is attached. -/
theorem date_frames_iff (tags : GstTagList) :
    (∀ d vs, gst_tag_list_values tags GST_TAG_DATE = .date d :: vs →
        ((∃ f ∈ (gst_id3v23_mux_render_tag tags).frames, f.id = .ID3FID_YEAR)
            ↔ g_date_get_year d ≠ G_DATE_BAD_YEAR)
          ∧ ((∃ f ∈ (gst_id3v23_mux_render_tag tags).frames, f.id = .ID3FID_DATE)
            ↔ (g_date_get_month d ≠ G_DATE_BAD_MONTH ∧ g_date_get_day d ≠ G_DATE_BAD_DAY))
          ∧ (g_date_get_year d ≠ G_DATE_BAD_YEAR ↔ g_date_valid d = true)
          ∧ ((g_date_get_month d ≠ G_DATE_BAD_MONTH ∧ g_date_get_day d ≠ G_DATE_BAD_DAY)
            ↔ g_date_valid d = true)
          ∧ ((∃ f ∈ (gst_id3v23_mux_render_tag tags).frames, f.id = .ID3FID_YEAR)
            ↔ ∃ f ∈ (gst_id3v23_mux_render_tag tags).frames, f.id = .ID3FID_DATE)
          ∧ (g_date_valid_year d.year = false →
              ¬ (∃ f ∈ (gst_id3v23_mux_render_tag tags).frames, f.id = .ID3FID_YEAR)
                ∧ ¬ ∃ f ∈ (gst_id3v23_mux_render_tag tags).frames, f.id = .ID3FID_DATE))
      ∧ (gst_tag_list_values tags GST_TAG_DATE = [] →
          ¬ (∃ f ∈ (gst_id3v23_mux_render_tag tags).frames, f.id = .ID3FID_YEAR)
            ∧ ¬ ∃ f ∈ (gst_id3v23_mux_render_tag tags).frames, f.id = .ID3FID_DATE) := by
  refine ⟨fun d vs hv => ?_, fun hnil => ?_⟩
  · have hd := tag_to_date_of_values tags d vs hv
    have hyear := year_frame_iff_valid tags d hd
    have hdate := date_frame_iff_valid tags d hd
    refine ⟨hyear.trans (date_get_year_ne_bad d).symm,
      hdate.trans (date_get_month_day_ne_bad d).symm, date_get_year_ne_bad d,
      date_get_month_day_ne_bad d, hyear.trans hdate.symm, fun hbad => ?_⟩
    have hnv : ¬ g_date_valid d = true := by
      intro hval
      have hy := (date_valid_fields d hval).1
      simp only [g_date_valid_year, G_DATE_BAD_YEAR, decide_eq_false_iff_not] at hbad
      omega
    exact ⟨fun h => hnv (hyear.1 h), fun h => hnv (hdate.1 h)⟩
  · have hnone : tags_tag_to_date tags GST_TAG_DATE = none := by
      simp [tags_tag_to_date, gst_tag_list_get_date, copy_value_nil tags _ hnil]
    constructor
    · rintro ⟨f, hf, hid⟩
      have h := (frames_with_year_id tags f).1 ⟨hf, hid⟩
      rw [hnone] at h
      exact absurd h (by simp [render_frame_year])
    · rintro ⟨f, hf, hid⟩
      have h := (frames_with_date_id tags f).1 ⟨hf, hid⟩
      rw [hnone] at h
      exact absurd h (by simp [render_frame_date])

/-- C6 at the date 2008-03-15 (both frames), at a date with the month 12 and
the day 31 and no valid year (no year frame, no date frame), and at the
empty tag set (no year frame). -/
theorem date_frames_iff_witness :
    (∃ f ∈ (gst_id3v23_mux_render_tag [(GST_TAG_DATE, [.date ⟨2008, 3, 15⟩])]).frames,
        f.id = .ID3FID_YEAR)
      ∧ (∃ f ∈ (gst_id3v23_mux_render_tag [(GST_TAG_DATE, [.date ⟨2008, 3, 15⟩])]).frames,
        f.id = .ID3FID_DATE)
      ∧ ¬ (∃ f ∈ (gst_id3v23_mux_render_tag [(GST_TAG_DATE, [.date ⟨0, 12, 31⟩])]).frames,
        f.id = .ID3FID_YEAR)
      ∧ ¬ (∃ f ∈ (gst_id3v23_mux_render_tag [(GST_TAG_DATE, [.date ⟨0, 12, 31⟩])]).frames,
        f.id = .ID3FID_DATE)
      ∧ ¬ (∃ f ∈ (gst_id3v23_mux_render_tag []).frames, f.id = .ID3FID_YEAR) :=
  have h1 := (date_frames_iff [(GST_TAG_DATE, [.date ⟨2008, 3, 15⟩])]).1 ⟨2008, 3, 15⟩ []
    (by decide)
  have h2 := (date_frames_iff [(GST_TAG_DATE, [.date ⟨0, 12, 31⟩])]).1 ⟨0, 12, 31⟩ []
    (by decide)
  ⟨h1.1.2 (by decide), h1.2.1.2 (by decide),
   (h2.2.2.2.2.2 (by decide)).1, (h2.2.2.2.2.2 (by decide)).2,
   ((date_frames_iff []).2 (by decide)).1⟩

theorem image_payload_of_value (tags : GstTagList) (tag : GString) (b : GstBuffer)
    (st : GstStructure)
    (hv : gst_tag_list_get_value_index tags tag 0 = some (.buffer b))
    (hdata : GST_BUFFER_DATA b ≠ [])
    (hcaps : (GST_BUFFER_CAPS b).bind (fun caps => gst_caps_get_structure caps 0) = some st) :
    image_payload tags tag = some (b, st) := by
  obtain ⟨data, caps⟩ := b
  have hd : 0 < data.length := List.length_pos.mpr hdata
  rcases caps with _ | caps
  · simp [GST_BUFFER_CAPS] at hcaps
  · rcases caps with _ | ⟨st', sts⟩
    · simp [GST_BUFFER_CAPS, gst_caps_get_structure] at hcaps
    · simp only [GST_BUFFER_CAPS, Option.some_bind, gst_caps_get_structure,
        List.getElem?_cons_zero, Option.some.injEq] at hcaps
      subst hcaps
      simp [image_payload, hv, hd]

/-- C7. For a tag whose first value is a buffer with bytes whose caps name the
type `image/jpeg` (resp. `image/png`), the frame is built: it has the frame
id asked for, the image format `JPG` (resp. `PNG`), the MIME type of the
caps as it was given, and the bytes of the buffer as data. -/
theorem image_frame_of_jpeg_or_png (tags : GstTagList) (tag : GString) (id : ID3_FrameID)
    (b : GstBuffer) (st : GstStructure)
    (hv : gst_tag_list_get_value_index tags tag 0 = some (.buffer b))
    (hdata : GST_BUFFER_DATA b ≠ [])
    (hcaps : (GST_BUFFER_CAPS b).bind (fun caps => gst_caps_get_structure caps 0) = some st) :
    (gst_structure_get_name st = ascii "image/jpeg" →
        ∃ f, tags_image_tag_to_frame tags tag id = some f ∧ f.id = id
          ∧ f.imageformat.value = .ascii (ascii "JPG")
          ∧ f.mimetype.value = .ascii (gst_structure_get_name st)
          ∧ f.data.value = .binary (GST_BUFFER_DATA b)
          ∧ (GST_BUFFER_DATA b).length = GST_BUFFER_SIZE b)
      ∧ (gst_structure_get_name st = ascii "image/png" →
        ∃ f, tags_image_tag_to_frame tags tag id = some f ∧ f.id = id
          ∧ f.imageformat.value = .ascii (ascii "PNG")
          ∧ f.mimetype.value = .ascii (gst_structure_get_name st)
          ∧ f.data.value = .binary (GST_BUFFER_DATA b)
          ∧ (GST_BUFFER_DATA b).length = GST_BUFFER_SIZE b) := by
  have hp := image_payload_of_value tags tag b st hv hdata hcaps
  constructor
  · intro hname
    have hname' : st.name = ascii "image/jpeg" := hname
    have hfmt : image_format st.name = some (ascii "JPG") := by rw [hname']; decide
    exact ⟨picture_frame id (ascii "JPG") st.name (picture_type tag)
        (gst_structure_get_string st (ascii "image-description")) b.data,
      by rw [image_tag_to_frame_eq, hp]; simp only [hfmt], rfl, rfl, rfl, rfl, rfl⟩
  · intro hname
    have hname' : st.name = ascii "image/png" := hname
    have hfmt : image_format st.name = some (ascii "PNG") := by rw [hname']; decide
    exact ⟨picture_frame id (ascii "PNG") st.name (picture_type tag)
        (gst_structure_get_string st (ascii "image-description")) b.data,
      by rw [image_tag_to_frame_eq, hp]; simp only [hfmt], rfl, rfl, rfl, rfl, rfl⟩

/-- C7 at a three-byte JPEG image: format `JPG`, the MIME type echoed, the bytes kept. -/
theorem image_frame_of_jpeg_or_png_witness :
    ∃ f, tags_image_tag_to_frame
          [(GST_TAG_IMAGE, [.buffer ⟨[255, 216, 255], some [⟨ascii "image/jpeg", []⟩]⟩])]
          GST_TAG_IMAGE .ID3FID_PICTURE = some f
      ∧ f.id = .ID3FID_PICTURE
      ∧ f.imageformat.value = .ascii (ascii "JPG")
      ∧ f.mimetype.value = .ascii (ascii "image/jpeg")
      ∧ f.data.value = .binary [255, 216, 255]
      ∧ [255, 216, 255].length = 3 :=
  (image_frame_of_jpeg_or_png
    [(GST_TAG_IMAGE, [.buffer ⟨[255, 216, 255], some [⟨ascii "image/jpeg", []⟩]⟩])]
    GST_TAG_IMAGE .ID3FID_PICTURE ⟨[255, 216, 255], some [⟨ascii "image/jpeg", []⟩]⟩
    ⟨ascii "image/jpeg", []⟩ (by decide) (by decide) (by decide)).1 (by decide)

theorem values_remove_ne (tags : GstTagList) (t tag : GString) (h : tag ≠ t) :
    gst_tag_list_values (gst_tag_list_remove_tag tags t) tag = gst_tag_list_values tags tag := by
  induction tags with
  | nil => rfl
  | cons e tags ih =>
    obtain ⟨name, vs⟩ := e
    unfold gst_tag_list_remove_tag at ih ⊢
    simp only [ne_eq, decide_not] at ih ⊢
    by_cases hn : name = t
    · subst hn
      have : ¬ name = tag := fun h' => h h'.symm
      simp [List.filter_cons, gst_tag_list_values, this, ih]
    · by_cases hnt : name = tag
      · subst hnt
        simp [List.filter_cons, gst_tag_list_values, hn]
      · simp [List.filter_cons, gst_tag_list_values, hn, hnt, ih]

theorem values_remove_self (tags : GstTagList) (t : GString) :
    gst_tag_list_values (gst_tag_list_remove_tag tags t) t = [] := by
  induction tags with
  | nil => rfl
  | cons e tags ih =>
    obtain ⟨name, vs⟩ := e
    unfold gst_tag_list_remove_tag at ih ⊢
    simp only [ne_eq, decide_not] at ih ⊢
    by_cases hn : name = t
    · simp [List.filter_cons, hn, ih]
    · simp [List.filter_cons, gst_tag_list_values, hn, ih]

theorem index_remove_ne (tags : GstTagList) (t tag : GString) (h : tag ≠ t) (i : Nat) :
    gst_tag_list_get_value_index (gst_tag_list_remove_tag tags t) tag i
      = gst_tag_list_get_value_index tags tag i := by
  simp only [gst_tag_list_get_value_index, values_remove_ne tags t tag h]

theorem copy_value_remove_ne (tags : GstTagList) (t tag : GString) (h : tag ≠ t) :
    gst_tag_list_copy_value (gst_tag_list_remove_tag tags t) tag
      = gst_tag_list_copy_value tags tag := by
  simp only [gst_tag_list_copy_value, values_remove_ne tags t tag h]

theorem tag_to_frame_remove_ne (tags : GstTagList) (t tag : GString) (h : tag ≠ t)
    (id : ID3_FrameID) :
    tags_tag_to_frame (gst_tag_list_remove_tag tags t) tag id = tags_tag_to_frame tags tag id := by
  simp only [tags_tag_to_frame, tags_tag_to_string, gst_tag_list_get_string,
    gst_tag_list_get_uint, gst_tag_list_get_date, copy_value_remove_ne tags t tag h]

theorem composed_remove_ne (tags : GstTagList) (t left right : GString) (hl : left ≠ t)
    (hr : right ≠ t) (id : ID3_FrameID) :
    tags_composed_tags_to_frame (gst_tag_list_remove_tag tags t) left right id
      = tags_composed_tags_to_frame tags left right id := by
  simp only [tags_composed_tags_to_frame, gst_tag_list_get_uint,
    copy_value_remove_ne tags t left hl, copy_value_remove_ne tags t right hr]

theorem tag_to_date_remove_ne (tags : GstTagList) (t tag : GString) (h : tag ≠ t) :
    tags_tag_to_date (gst_tag_list_remove_tag tags t) tag = tags_tag_to_date tags tag := by
  simp only [tags_tag_to_date, gst_tag_list_get_date, copy_value_remove_ne tags t tag h]

theorem image_remove_ne (tags : GstTagList) (t tag : GString) (h : tag ≠ t) (id : ID3_FrameID) :
    tags_image_tag_to_frame (gst_tag_list_remove_tag tags t) tag id
      = tags_image_tag_to_frame tags tag id := by
  simp only [tags_image_tag_to_frame, index_remove_ne tags t tag h]

theorem image_remove_self (tags : GstTagList) (t : GString) (id : ID3_FrameID) :
    tags_image_tag_to_frame (gst_tag_list_remove_tag tags t) t id = none := by
  simp [tags_image_tag_to_frame, gst_tag_list_get_value_index, values_remove_self]

/-- Without the image tag the render attaches the same tag container when the
image tag gave no frame. -/
theorem render_remove_image (tags : GstTagList)
    (h : tags_image_tag_to_frame tags GST_TAG_IMAGE .ID3FID_PICTURE = none) :
    gst_id3v23_mux_render_tag (gst_tag_list_remove_tag tags GST_TAG_IMAGE)
      = gst_id3v23_mux_render_tag tags := by
  simp only [gst_id3v23_mux_render_tag, image_remove_self, h,
    tag_to_frame_remove_ne tags GST_TAG_IMAGE GST_TAG_TITLE (by decide),
    tag_to_frame_remove_ne tags GST_TAG_IMAGE GST_TAG_ALBUM (by decide),
    tag_to_frame_remove_ne tags GST_TAG_IMAGE GST_TAG_ARTIST (by decide),
    tag_to_frame_remove_ne tags GST_TAG_IMAGE GST_TAG_GENRE (by decide),
    composed_remove_ne tags GST_TAG_IMAGE GST_TAG_TRACK_NUMBER GST_TAG_TRACK_COUNT
      (by decide) (by decide),
    composed_remove_ne tags GST_TAG_IMAGE GST_TAG_ALBUM_VOLUME_NUMBER GST_TAG_ALBUM_VOLUME_COUNT
      (by decide) (by decide),
    tag_to_date_remove_ne tags GST_TAG_IMAGE GST_TAG_DATE (by decide),
    image_remove_ne tags GST_TAG_IMAGE GST_TAG_PREVIEW_IMAGE (by decide)]

theorem render_remove_preview (tags : GstTagList)
    (h : tags_image_tag_to_frame tags GST_TAG_PREVIEW_IMAGE .ID3FID_PICTURE = none) :
    gst_id3v23_mux_render_tag (gst_tag_list_remove_tag tags GST_TAG_PREVIEW_IMAGE)
      = gst_id3v23_mux_render_tag tags := by
  simp only [gst_id3v23_mux_render_tag, image_remove_self, h,
    tag_to_frame_remove_ne tags GST_TAG_PREVIEW_IMAGE GST_TAG_TITLE (by decide),
    tag_to_frame_remove_ne tags GST_TAG_PREVIEW_IMAGE GST_TAG_ALBUM (by decide),
    tag_to_frame_remove_ne tags GST_TAG_PREVIEW_IMAGE GST_TAG_ARTIST (by decide),
    tag_to_frame_remove_ne tags GST_TAG_PREVIEW_IMAGE GST_TAG_GENRE (by decide),
    composed_remove_ne tags GST_TAG_PREVIEW_IMAGE GST_TAG_TRACK_NUMBER GST_TAG_TRACK_COUNT
      (by decide) (by decide),
    composed_remove_ne tags GST_TAG_PREVIEW_IMAGE GST_TAG_ALBUM_VOLUME_NUMBER
      GST_TAG_ALBUM_VOLUME_COUNT (by decide) (by decide),
    tag_to_date_remove_ne tags GST_TAG_PREVIEW_IMAGE GST_TAG_DATE (by decide),
    image_remove_ne tags GST_TAG_PREVIEW_IMAGE GST_TAG_IMAGE (by decide)]


theorem image_payload_eq_some_iff (tags : GstTagList) (tag : GString) (b : GstBuffer)
    (st : GstStructure) :
    image_payload tags tag = some (b, st)
      ↔ gst_tag_list_get_value_index tags tag 0 = some (.buffer b)
        ∧ tags_buffer_has_data (some b) = true
        ∧ (GST_BUFFER_CAPS b).bind (fun caps => gst_caps_get_structure caps 0) = some st := by
  unfold image_payload
  rcases hv : gst_tag_list_get_value_index tags tag 0 with _ | v
  · simp
  · cases v with
    | buffer b' =>
      obtain ⟨data, caps⟩ := b'
      rcases caps with _ | caps
      · simp [tags_buffer_has_data, GST_BUFFER_CAPS]
        intro h; subst h; simp
      · rcases caps with _ | ⟨st', sts⟩
        · simp [tags_buffer_has_data, GST_BUFFER_CAPS, gst_caps_is_empty]
          intro h; subst h; simp
        · by_cases hd : 0 < data.length
          · simp only [hd, if_true, Option.some.injEq, Prod.mk.injEq, GValue.buffer.injEq]
            constructor
            · rintro ⟨rfl, rfl⟩
              simp [tags_buffer_has_data, GST_BUFFER_SIZE, GST_BUFFER_CAPS, gst_caps_is_empty,
                gst_caps_get_structure, hd]
            · rintro ⟨rfl, -, h⟩
              simpa [GST_BUFFER_CAPS, gst_caps_get_structure] using h
          · simp only [hd, if_false, Option.some.injEq, GValue.buffer.injEq]
            constructor
            · intro h; exact absurd h (by simp)
            · rintro ⟨rfl, h, -⟩
              simp [tags_buffer_has_data, GST_BUFFER_SIZE] at h
              exact absurd h.1 hd
    | _ => simp

theorem image_format_isSome_iff (mime : GString) :
    (image_format mime).isSome = true
      ↔ (g_ascii_strcasecmp mime (ascii "image/png") = 0
          ∨ g_ascii_strcasecmp mime (ascii "image/jpeg") = 0) := by
  unfold image_format
  by_cases h1 : g_ascii_strcasecmp mime (ascii "image/png") = 0
  · simp [h1]
  · by_cases h2 : g_ascii_strcasecmp mime (ascii "image/jpeg") = 0
    · simp [h1, h2]
    · simp [h1, h2]


theorem mini_object_eq_some (value : GValue) (b : GstBuffer)
    (h : gst_value_get_mini_object value = some b) : value = .buffer b := by
  cases value <;> simp [gst_value_get_mini_object] at h
  rw [h]

/-- C8. The image frame is built exactly when the tag has a first value, that
value is a buffer that has data, and the name of the first structure of its
caps compares equal to `image/png` or to `image/jpeg` without regard to
ASCII case.  A buffer of type `image/gif` gives no frame, and when the image
tag (or the preview-image tag) gives no frame the render fills the tag
container as it does for the tag set without that tag. -/
theorem image_frame_iff (tags : GstTagList) (tag : GString) (id : ID3_FrameID) :
    ((tags_image_tag_to_frame tags tag id).isSome = true
        ↔ ∃ value b st, gst_tag_list_get_value_index tags tag 0 = some value
            ∧ gst_value_get_mini_object value = some b
            ∧ tags_buffer_has_data (some b) = true
            ∧ (GST_BUFFER_CAPS b).bind (fun caps => gst_caps_get_structure caps 0) = some st
            ∧ (g_ascii_strcasecmp (gst_structure_get_name st) (ascii "image/png") = 0
                ∨ g_ascii_strcasecmp (gst_structure_get_name st) (ascii "image/jpeg") = 0))
      ∧ (∀ b st, gst_tag_list_get_value_index tags tag 0 = some (.buffer b) →
          (GST_BUFFER_CAPS b).bind (fun caps => gst_caps_get_structure caps 0) = some st →
          gst_structure_get_name st = ascii "image/gif" →
          tags_image_tag_to_frame tags tag id = none)
      ∧ (tags_image_tag_to_frame tags GST_TAG_IMAGE .ID3FID_PICTURE = none →
          gst_id3v23_mux_render_tag (gst_tag_list_remove_tag tags GST_TAG_IMAGE)
            = gst_id3v23_mux_render_tag tags)
      ∧ (tags_image_tag_to_frame tags GST_TAG_PREVIEW_IMAGE .ID3FID_PICTURE = none →
          gst_id3v23_mux_render_tag (gst_tag_list_remove_tag tags GST_TAG_PREVIEW_IMAGE)
            = gst_id3v23_mux_render_tag tags) := by
  have hiff : (tags_image_tag_to_frame tags tag id).isSome = true
      ↔ ∃ value b st, gst_tag_list_get_value_index tags tag 0 = some value
          ∧ gst_value_get_mini_object value = some b
          ∧ tags_buffer_has_data (some b) = true
          ∧ (GST_BUFFER_CAPS b).bind (fun caps => gst_caps_get_structure caps 0) = some st
          ∧ (g_ascii_strcasecmp (gst_structure_get_name st) (ascii "image/png") = 0
              ∨ g_ascii_strcasecmp (gst_structure_get_name st) (ascii "image/jpeg") = 0) := by
    rw [image_tag_to_frame_eq]
    constructor
    · intro h
      cases hp : image_payload tags tag with
      | none => rw [hp] at h; exact absurd h (by simp)
      | some p =>
        obtain ⟨b, st⟩ := p
        rw [hp] at h
        obtain ⟨hv, hhas, hcaps⟩ := (image_payload_eq_some_iff tags tag b st).1 hp
        refine ⟨.buffer b, b, st, hv, rfl, hhas, hcaps, ?_⟩
        apply (image_format_isSome_iff st.name).1
        cases hf : image_format st.name with
        | none => simp [hf] at h
        | some fmt => rfl
    · rintro ⟨value, b, st, hv, hmo, hhas, hcaps, hfmt⟩
      have hval := mini_object_eq_some value b hmo
      subst hval
      have hp := (image_payload_eq_some_iff tags tag b st).2 ⟨hv, hhas, hcaps⟩
      rw [hp]
      have hsome := (image_format_isSome_iff st.name).2 hfmt
      cases hf : image_format st.name with
      | none => rw [hf] at hsome; exact absurd hsome (by simp)
      | some fmt => simp [hf]
  refine ⟨hiff, ?_, render_remove_image tags, render_remove_preview tags⟩
  intro b st hv hcaps hname
  cases hres : tags_image_tag_to_frame tags tag id with
  | none => rfl
  | some f =>
    have hsome : (tags_image_tag_to_frame tags tag id).isSome = true := by rw [hres]; rfl
    obtain ⟨value, b', st', hv', hmo, -, hcaps', hfmt⟩ := hiff.1 hsome
    rw [hv] at hv'
    cases hv'
    simp only [gst_value_get_mini_object, Option.some.injEq] at hmo
    subst hmo
    rw [hcaps] at hcaps'
    cases hcaps'
    rw [hname] at hfmt
    exact absurd hfmt (by decide)

/-- C8 at a tag set with a title and a GIF image: no image frame, and the
render gives what it gives for the title alone. -/
theorem image_frame_iff_witness :
    tags_image_tag_to_frame
        [(GST_TAG_TITLE, [.string (ascii "Song")]),
         (GST_TAG_IMAGE, [.buffer ⟨[71, 73, 70], some [⟨ascii "image/gif", []⟩]⟩])]
        GST_TAG_IMAGE .ID3FID_PICTURE = none
      ∧ gst_id3v23_mux_render_tag [(GST_TAG_TITLE, [.string (ascii "Song")])]
        = gst_id3v23_mux_render_tag
            [(GST_TAG_TITLE, [.string (ascii "Song")]),
             (GST_TAG_IMAGE, [.buffer ⟨[71, 73, 70], some [⟨ascii "image/gif", []⟩]⟩])] :=
  have h := image_frame_iff
    [(GST_TAG_TITLE, [.string (ascii "Song")]),
     (GST_TAG_IMAGE, [.buffer ⟨[71, 73, 70], some [⟨ascii "image/gif", []⟩]⟩])]
    GST_TAG_IMAGE .ID3FID_PICTURE
  have hnone := h.2.1 ⟨[71, 73, 70], some [⟨ascii "image/gif", []⟩]⟩ ⟨ascii "image/gif", []⟩
    (by decide) (by decide) (by decide)
  ⟨hnone, h.2.2.1 hnone⟩

/-- C9, as stated, fails: the picture frame of the primary image tag carries
the code of the 32x32 PNG file icon, which is not the front-cover code. -/
theorem primary_image_not_front_cover :
    ∃ f, tags_image_tag_to_frame
          [(GST_TAG_IMAGE, [.buffer ⟨[255, 216, 255], some [⟨ascii "image/jpeg", []⟩]⟩])]
          GST_TAG_IMAGE .ID3FID_PICTURE = some f
      ∧ f.picturetype.value = .integer ID3_PictureType.ID3PT_PNG32ICON.val
      ∧ f.picturetype.value ≠ .integer ID3_PictureType.ID3PT_COVERFRONT.val := by
  refine ⟨_, rfl, ?_, ?_⟩ <;> decide

/-- C9, amended. The picture frame built for the preview-image tag carries
the picture type `ID3PT_OTHER`; the picture frame built for the primary
image tag carries the picture type `ID3PT_PNG32ICON`. -/
theorem picture_type_codes (tags : GstTagList) (id : ID3_FrameID) (f : ID3_Frame) :
    (tags_image_tag_to_frame tags GST_TAG_PREVIEW_IMAGE id = some f →
        f.picturetype.value = .integer ID3_PictureType.ID3PT_OTHER.val)
      ∧ (tags_image_tag_to_frame tags GST_TAG_IMAGE id = some f →
        f.picturetype.value = .integer ID3_PictureType.ID3PT_PNG32ICON.val) := by
  constructor
  · intro h
    rw [image_frame_picturetype tags _ id f h]
    have : picture_type GST_TAG_PREVIEW_IMAGE = .ID3PT_OTHER := by decide
    rw [this]
  · intro h
    rw [image_frame_picturetype tags _ id f h]
    have : picture_type GST_TAG_IMAGE = .ID3PT_PNG32ICON := by decide
    rw [this]

/-- C9 at a tag set holding one image under both tags: the preview frame has
picture type 0, the primary frame picture type 1. -/
theorem picture_type_codes_witness :
    (picture_frame .ID3FID_PICTURE (ascii "PNG") (ascii "image/png") .ID3PT_OTHER none
        [137, 80]).picturetype.value = .integer 0
      ∧ (picture_frame .ID3FID_PICTURE (ascii "PNG") (ascii "image/png") .ID3PT_PNG32ICON none
        [137, 80]).picturetype.value = .integer 1 :=
  ⟨(picture_type_codes
      [(GST_TAG_IMAGE, [.buffer ⟨[137, 80], some [⟨ascii "image/png", []⟩]⟩]),
       (GST_TAG_PREVIEW_IMAGE, [.buffer ⟨[137, 80], some [⟨ascii "image/png", []⟩]⟩])]
      .ID3FID_PICTURE _).1 (by decide),
   (picture_type_codes
      [(GST_TAG_IMAGE, [.buffer ⟨[137, 80], some [⟨ascii "image/png", []⟩]⟩]),
       (GST_TAG_PREVIEW_IMAGE, [.buffer ⟨[137, 80], some [⟨ascii "image/png", []⟩]⟩])]
      .ID3FID_PICTURE _).2 (by decide)⟩


theorem filter_reduceOption {α : Type} (p : α → Bool) (os : List (Option α)) :
    (List.reduceOption os).filter p = List.reduceOption (os.map (fun o => o.filter p)) := by
  induction os with
  | nil => rfl
  | cons o os ih =>
    cases o with
    | none => simp [List.reduceOption_cons_of_none, ih]
    | some a =>
      by_cases hp : p a = true
      · simp [List.reduceOption_cons_of_some, List.filter_cons, Option.filter, hp, ih]
      · simp [List.reduceOption_cons_of_some, List.reduceOption_cons_of_none,
          List.filter_cons, Option.filter, hp, ih]

theorem option_filter_none_of {α : Type} (p : α → Bool) (o : Option α)
    (h : ∀ a, o = some a → p a = false) : o.filter p = none := by
  cases o with
  | none => rfl
  | some a => simp [Option.filter, h a rfl]

theorem image_frame_form (tags : GstTagList) (tag : GString) (id : ID3_FrameID) (f : ID3_Frame)
    (h : tags_image_tag_to_frame tags tag id = some f) :
    ∃ b st fmt, image_payload tags tag = some (b, st) ∧ image_format st.name = some fmt
      ∧ f = picture_frame id fmt st.name (picture_type tag)
          (gst_structure_get_string st (ascii "image-description")) b.data := by
  rw [image_tag_to_frame_eq] at h
  cases hp : image_payload tags tag with
  | none => rw [hp] at h; exact absurd h (by simp)
  | some p =>
    obtain ⟨b, st⟩ := p
    rw [hp] at h
    cases hf : image_format st.name with
    | none => simp [hf] at h
    | some fmt =>
      simp only [hf, Option.some.injEq] at h
      exact ⟨b, st, fmt, rfl, hf, h.symm⟩

theorem picture_frames_filter (tags : GstTagList) :
    (gst_id3v23_mux_render_tag tags).frames.filter (fun h => decide (h.id = .ID3FID_PICTURE))
      = List.reduceOption
          [ tags_image_tag_to_frame tags GST_TAG_IMAGE .ID3FID_PICTURE,
            tags_image_tag_to_frame tags GST_TAG_PREVIEW_IMAGE .ID3FID_PICTURE ] := by
  rw [render_tag_frames, filter_reduceOption]
  have htext : ∀ tag id, id ≠ ID3_FrameID.ID3FID_PICTURE →
      (tags_tag_to_frame tags tag id).filter (fun h => decide (h.id = .ID3FID_PICTURE))
        = none := by
    intro tag id hne
    apply option_filter_none_of
    intro a ha
    simp [tag_to_frame_id tags tag id a ha, hne]
  have hcomp : ∀ l r id, id ≠ ID3_FrameID.ID3FID_PICTURE →
      (some (tags_composed_tags_to_frame tags l r id)).filter
        (fun h => decide (h.id = .ID3FID_PICTURE)) = none := by
    intro l r id hne
    simp [Option.filter, composed_id, hne]
  have hyear : (render_frame_year (tags_tag_to_date tags GST_TAG_DATE)).filter
      (fun h => decide (h.id = .ID3FID_PICTURE)) = none := by
    apply option_filter_none_of
    intro a ha
    simp [frame_year_id _ a ha]
  have hdate : (render_frame_date (tags_tag_to_date tags GST_TAG_DATE)).filter
      (fun h => decide (h.id = .ID3FID_PICTURE)) = none := by
    apply option_filter_none_of
    intro a ha
    simp [frame_date_id _ a ha]
  have himg : ∀ tag, (tags_image_tag_to_frame tags tag .ID3FID_PICTURE).filter
      (fun h => decide (h.id = .ID3FID_PICTURE))
        = tags_image_tag_to_frame tags tag .ID3FID_PICTURE := by
    intro tag
    cases ho : tags_image_tag_to_frame tags tag .ID3FID_PICTURE with
    | none => rfl
    | some a => simp [Option.filter, image_frame_id tags tag _ a ho]
  simp only [List.map_cons, List.map_nil,
    htext GST_TAG_TITLE .ID3FID_TITLE (by decide),
    htext GST_TAG_ARTIST .ID3FID_LEADARTIST (by decide),
    htext GST_TAG_ALBUM .ID3FID_ALBUM (by decide),
    htext GST_TAG_GENRE .ID3FID_CONTENTTYPE (by decide),
    hcomp _ _ .ID3FID_PARTINSET (by decide), hcomp _ _ .ID3FID_TRACKNUM (by decide),
    hyear, hdate, himg, List.reduceOption_cons_of_none]


/-- C10. When the image tag and the preview-image tag both give a frame, the
picture frames the render attaches are these two, the image frame first,
and their picture types differ.  If moreover the two tags hold the same
payload (the same bytes, the same caps type and the same description), the
two frames agree on every field other than the picture type. -/
theorem two_picture_frames (tags : GstTagList) (f g : ID3_Frame)
    (hf : tags_image_tag_to_frame tags GST_TAG_IMAGE .ID3FID_PICTURE = some f)
    (hg : tags_image_tag_to_frame tags GST_TAG_PREVIEW_IMAGE .ID3FID_PICTURE = some g) :
    (gst_id3v23_mux_render_tag tags).frames.filter (fun h => decide (h.id = .ID3FID_PICTURE))
        = [f, g]
      ∧ f.picturetype ≠ g.picturetype
      ∧ f ≠ g
      ∧ ∀ b1 st1 b2 st2,
          gst_tag_list_get_value_index tags GST_TAG_IMAGE 0 = some (.buffer b1) →
          (GST_BUFFER_CAPS b1).bind (fun caps => gst_caps_get_structure caps 0) = some st1 →
          gst_tag_list_get_value_index tags GST_TAG_PREVIEW_IMAGE 0 = some (.buffer b2) →
          (GST_BUFFER_CAPS b2).bind (fun caps => gst_caps_get_structure caps 0) = some st2 →
          GST_BUFFER_DATA b1 = GST_BUFFER_DATA b2 →
          gst_structure_get_name st1 = gst_structure_get_name st2 →
          gst_structure_get_string st1 (ascii "image-description")
            = gst_structure_get_string st2 (ascii "image-description") →
          f.id = g.id ∧ f.textenc = g.textenc ∧ f.text = g.text
            ∧ f.description = g.description ∧ f.imageformat = g.imageformat
            ∧ f.mimetype = g.mimetype ∧ f.data = g.data := by
  have hpt : f.picturetype ≠ g.picturetype := by
    rw [image_frame_picturetype tags _ _ f hf, image_frame_picturetype tags _ _ g hg]
    decide
  refine ⟨?_, hpt, fun h => hpt (by rw [h]), ?_⟩
  · rw [picture_frames_filter, hf, hg]
    rfl
  · intro b1 st1 b2 st2 hv1 hc1 hv2 hc2 hdata hname hdesc
    obtain ⟨b, st, fmt, hp, hfmt, rfl⟩ := image_frame_form tags _ _ f hf
    obtain ⟨b', st', fmt', hp', hfmt', rfl⟩ := image_frame_form tags _ _ g hg
    obtain ⟨hv, -, hc⟩ := (image_payload_eq_some_iff tags _ b st).1 hp
    obtain ⟨hv', -, hc'⟩ := (image_payload_eq_some_iff tags _ b' st').1 hp'
    rw [hv1] at hv
    cases hv
    rw [hv2] at hv'
    cases hv'
    rw [hc1] at hc
    cases hc
    rw [hc2] at hc'
    cases hc'
    have hname' : st1.name = st2.name := hname
    have hdata' : b1.data = b2.data := hdata
    have hfmt_eq : fmt = fmt' := by
      rw [hname'] at hfmt
      rw [hfmt] at hfmt'
      exact Option.some.inj hfmt'
    subst hfmt_eq
    simp only [picture_frame, hname', hdata', hdesc, and_self]

/-- C10 at a tag set holding the same PNG image under both tags. -/
theorem two_picture_frames_witness :
    (gst_id3v23_mux_render_tag
        [(GST_TAG_IMAGE, [.buffer ⟨[137, 80], some [⟨ascii "image/png", []⟩]⟩]),
         (GST_TAG_PREVIEW_IMAGE,
           [.buffer ⟨[137, 80], some [⟨ascii "image/png", []⟩]⟩])]).frames.filter
        (fun h => decide (h.id = .ID3FID_PICTURE))
      = [picture_frame .ID3FID_PICTURE (ascii "PNG") (ascii "image/png") .ID3PT_PNG32ICON none
          [137, 80],
         picture_frame .ID3FID_PICTURE (ascii "PNG") (ascii "image/png") .ID3PT_OTHER none
          [137, 80]] :=
  (two_picture_frames
    [(GST_TAG_IMAGE, [.buffer ⟨[137, 80], some [⟨ascii "image/png", []⟩]⟩]),
     (GST_TAG_PREVIEW_IMAGE, [.buffer ⟨[137, 80], some [⟨ascii "image/png", []⟩]⟩])]
    _ _ (by decide) (by decide)).1

/-! ## Tag values as strings -/

theorem fmt_plain (n : Nat) : g_strdup_printf "%u".toList [n] = decimal n := by
  simp [g_strdup_printf, vprintf, decimal_eq_fmt_u]

/-- What `tags_tag_to_string` gives for a tag registered with a 64-bit type. -/
theorem tag_to_string_uint64 (tags : GstTagList) (tag : GString)
    (ht : gst_tag_get_type tag = .G_TYPE_UINT64) : tags_tag_to_string tags tag = none := by
  simp [tags_tag_to_string, ht]

/-- C11, on the code: for the tag set holding the 64-bit value 1000 under
`duration`, `tags_tag_to_string` gives no string, where the claim asks for
`1000`. -/
theorem uint64_tag_to_string_absent :
    gst_tag_get_type (ascii "duration") = .G_TYPE_UINT64
      ∧ gst_tag_list_get_uint64 [(ascii "duration", [.uint64 1000])] (ascii "duration")
          = some 1000
      ∧ tags_tag_to_string [(ascii "duration", [.uint64 1000])] (ascii "duration") = none := by
  decide

/-- C14. For a tag whose registered type is none of string, unsigned, 64-bit
unsigned and date, and a tag set that holds a value for it,
`tags_tag_to_string` gives the empty string. -/
theorem unsupported_type_to_string (tags : GstTagList) (tag : GString)
    (hs : gst_tag_get_type tag ≠ .G_TYPE_STRING) (hu : gst_tag_get_type tag ≠ .G_TYPE_UINT)
    (hu64 : gst_tag_get_type tag ≠ .G_TYPE_UINT64)
    (hd : gst_tag_get_type tag ≠ .GST_TYPE_DATE) (hd' : gst_tag_get_type tag ≠ .G_TYPE_DATE)
    (_hval : gst_tag_list_values tags tag ≠ []) :
    tags_tag_to_string tags tag = some [] ∧ tags_tag_to_string tags tag ≠ none := by
  have h : tags_tag_to_string tags tag = some [] := by
    unfold tags_tag_to_string
    cases ht : gst_tag_get_type tag <;> simp_all
  exact ⟨h, by rw [h]; simp⟩

/-- C14 at a tag set holding a replay gain, a value of floating-point type. -/
theorem unsupported_type_to_string_witness :
    tags_tag_to_string [(ascii "replaygain-track-gain", [.double])]
      (ascii "replaygain-track-gain") = some [] :=
  (unsupported_type_to_string [(ascii "replaygain-track-gain", [.double])]
    (ascii "replaygain-track-gain") (by decide) (by decide) (by decide) (by decide)
    (by decide) (by decide)).1

theorem digit_count_pos (n : Nat) : 0 < digit_count n := by
  rcases Nat.eq_zero_or_pos n with h | h
  · subst h; decide
  · simp only [digit_count, decimal_eq_fmt_u, fmt_u_eq_digits n h, List.length_map,
      List.length_reverse]
    rw [Nat.digits_len 10 n (by decide) (by omega)]
    omega

/-- A positive number has `k + 1` decimal digits exactly when it lies between
`10 ^ k` and `10 ^ (k + 1)`. -/
theorem digit_count_eq_iff (n k : Nat) (hn : 0 < n) :
    digit_count n = k + 1 ↔ 10 ^ k ≤ n ∧ n < 10 ^ (k + 1) := by
  simp only [digit_count, decimal_eq_fmt_u, fmt_u_eq_digits n hn, List.length_map,
    List.length_reverse]
  rw [Nat.digits_len 10 n (by decide) (by omega), Nat.add_right_cancel_iff]
  exact Nat.log_eq_iff (Or.inr ⟨by decide, by omega⟩)

/-- C12, as stated, fails: for a date of the year 800 the string has three digits. -/
theorem year_string_not_four_digits :
    gst_tag_get_type GST_TAG_DATE = .GST_TYPE_DATE
      ∧ tags_tag_to_string [(GST_TAG_DATE, [.date ⟨800, 1, 1⟩])] GST_TAG_DATE
          = some (ascii "800")
      ∧ (ascii "800").length ≠ 4 := by
  decide

/-- C12, amended. For a date-typed tag `tags_tag_to_string` gives the year of
the first date value in plain decimal; that string has exactly four digits
exactly when the year lies between 1000 and 9999. -/
theorem date_tag_to_string (tags : GstTagList) (tag : GString) (d : GDate)
    (ht : gst_tag_get_type tag = .GST_TYPE_DATE ∨ gst_tag_get_type tag = .G_TYPE_DATE)
    (hd : gst_tag_list_get_date tags tag = some d) :
    tags_tag_to_string tags tag = some (gstr (decimal (g_date_get_year d)))
      ∧ (∀ c ∈ decimal (g_date_get_year d), c.isDigit = true)
      ∧ ((gstr (decimal (g_date_get_year d))).length = 4
          ↔ 1000 ≤ g_date_get_year d ∧ g_date_get_year d ≤ 9999) := by
  refine ⟨?_, fmt_u_isDigit _, ?_⟩
  · rcases ht with ht | ht <;>
    · simp only [tags_tag_to_string, ht, hd, fmt_plain]
      simp
  · have hlen : (gstr (decimal (g_date_get_year d))).length = digit_count (g_date_get_year d) := by
      simp [gstr, digit_count]
    rw [hlen]
    rcases Nat.eq_zero_or_pos (g_date_get_year d) with h0 | hpos
    · rw [h0]
      constructor
      · intro h; exact absurd h (by decide)
      · intro h; omega
    · rw [digit_count_eq_iff _ 3 hpos]
      constructor <;> intro h <;> constructor <;> omega

/-- C12 at the date 2008-03-15: the string is `2008`. -/
theorem date_tag_to_string_witness :
    tags_tag_to_string [(GST_TAG_DATE, [.date ⟨2008, 3, 15⟩])] GST_TAG_DATE
      = some (ascii "2008") :=
  (date_tag_to_string [(GST_TAG_DATE, [.date ⟨2008, 3, 15⟩])] GST_TAG_DATE ⟨2008, 3, 15⟩
    (Or.inl (by decide)) (by decide)).1.trans (by decide)

/-! ## The conversion to UTF-16 -/

theorem utf8_decode_lead (b : Nat) (bs : List Nat) (acc lo : Nat) :
    utf8_decode (b :: bs) 0 acc lo
      = if b < 0x80 then (utf8_decode bs 0 0 0).map (fun cps => b :: cps)
        else if 0xC0 ≤ b ∧ b < 0xE0 then utf8_decode bs 1 (b - 0xC0) 0x80
        else if 0xE0 ≤ b ∧ b < 0xF0 then utf8_decode bs 2 (b - 0xE0) 0x800
        else if 0xF0 ≤ b ∧ b < 0xF8 then utf8_decode bs 3 (b - 0xF0) 0x10000
        else none := by
  simp only [utf8_decode]

theorem utf8_decode_last (b : Nat) (bs : List Nat) (acc lo : Nat) (hb : 0x80 ≤ b ∧ b < 0xC0)
    (hcp : lo ≤ acc * 64 + (b - 0x80) ∧ acc * 64 + (b - 0x80) ≤ 0x10FFFF
      ∧ ¬ (0xD800 ≤ acc * 64 + (b - 0x80) ∧ acc * 64 + (b - 0x80) ≤ 0xDFFF)) :
    utf8_decode (b :: bs) 1 acc lo
      = (utf8_decode bs 0 0 0).map (fun cps => (acc * 64 + (b - 0x80)) :: cps) := by
  show utf8_decode (b :: bs) (0 + 1) acc lo = _
  simp only [utf8_decode, hb, hcp, and_self, if_true, not_false_eq_true]

theorem utf8_decode_more (b : Nat) (bs : List Nat) (need acc lo : Nat)
    (hb : 0x80 ≤ b ∧ b < 0xC0) :
    utf8_decode (b :: bs) (need + 2) acc lo = utf8_decode bs (need + 1) (acc * 64 + (b - 0x80)) lo := by
  show utf8_decode (b :: bs) ((need + 1) + 1) acc lo = _
  simp only [utf8_decode, hb, and_self, if_true, Nat.add_one_ne_zero, if_false]

/-- Decoding the UTF-8 bytes of a scalar value gives the value back. -/
theorem utf8_decode_encode_cp (cp : Nat) (rest : List Nat) (h : is_scalar_value cp) :
    utf8_decode (utf8_encode_cp cp ++ rest) 0 0 0
      = (utf8_decode rest 0 0 0).map (fun cps => cp :: cps) := by
  obtain ⟨hmax, hsur⟩ := h
  unfold utf8_encode_cp
  by_cases h1 : cp < 0x80
  · simp only [h1, if_true, List.singleton_append, utf8_decode_lead]
  · by_cases h2 : cp < 0x800
    · simp only [h1, h2, if_true, if_false, List.cons_append, List.nil_append]
      have hl : ¬ (0xC0 + cp / 64 < 0x80) := by omega
      have hl2 : 0xC0 ≤ 0xC0 + cp / 64 ∧ 0xC0 + cp / 64 < 0xE0 := by omega
      rw [utf8_decode_lead, if_neg hl, if_pos hl2,
        utf8_decode_last _ _ _ _ (by omega) (by omega)]
      have : (0xC0 + cp / 64 - 0xC0) * 64 + (0x80 + cp % 64 - 0x80) = cp := by omega
      rw [this]
    · by_cases h3 : cp < 0x10000
      · simp only [h1, h2, h3, if_true, if_false, List.cons_append, List.nil_append]
        have hl : ¬ (0xE0 + cp / 4096 < 0x80) := by omega
        have hl2 : ¬ (0xC0 ≤ 0xE0 + cp / 4096 ∧ 0xE0 + cp / 4096 < 0xE0) := by omega
        have hl3 : 0xE0 ≤ 0xE0 + cp / 4096 ∧ 0xE0 + cp / 4096 < 0xF0 := by omega
        rw [utf8_decode_lead, if_neg hl, if_neg hl2, if_pos hl3,
          utf8_decode_more _ _ 0 _ _ (by omega),
          utf8_decode_last _ _ _ _ (by omega) (by omega)]
        have : ((0xE0 + cp / 4096 - 0xE0) * 64 + (0x80 + cp / 64 % 64 - 0x80)) * 64
            + (0x80 + cp % 64 - 0x80) = cp := by omega
        rw [this]
      · simp only [h1, h2, h3, if_false, List.cons_append, List.nil_append]
        have hl : ¬ (0xF0 + cp / 262144 < 0x80) := by omega
        have hl2 : ¬ (0xC0 ≤ 0xF0 + cp / 262144 ∧ 0xF0 + cp / 262144 < 0xE0) := by omega
        have hl3 : ¬ (0xE0 ≤ 0xF0 + cp / 262144 ∧ 0xF0 + cp / 262144 < 0xF0) := by omega
        have hl4 : 0xF0 ≤ 0xF0 + cp / 262144 ∧ 0xF0 + cp / 262144 < 0xF8 := by omega
        rw [utf8_decode_lead, if_neg hl, if_neg hl2, if_neg hl3, if_pos hl4,
          utf8_decode_more _ _ 1 _ _ (by omega), utf8_decode_more _ _ 0 _ _ (by omega),
          utf8_decode_last _ _ _ _ (by omega) (by omega)]
        have : (((0xF0 + cp / 262144 - 0xF0) * 64 + (0x80 + cp / 4096 % 64 - 0x80)) * 64
            + (0x80 + cp / 64 % 64 - 0x80)) * 64 + (0x80 + cp % 64 - 0x80) = cp := by omega
        rw [this]

theorem utf8_decode_encode (cps : List Nat) (h : ∀ cp ∈ cps, is_scalar_value cp) :
    utf8_decode (cps.flatMap utf8_encode_cp) 0 0 0 = some cps := by
  induction cps with
  | nil => rfl
  | cons cp cps ih =>
    rw [List.flatMap_cons, utf8_decode_encode_cp cp _ (h cp (List.mem_cons_self _ _)),
      ih (fun x hx => h x (List.mem_cons_of_mem _ hx))]
    rfl

theorem utf16be_length_even (cps : List Nat) :
    Even (cps.flatMap utf16be_encode_cp).length := by
  induction cps with
  | nil => exact ⟨0, rfl⟩
  | cons cp cps ih =>
    rw [List.flatMap_cons, List.length_append]
    apply Even.add _ ih
    unfold utf16be_encode_cp
    split
    · exact ⟨1, rfl⟩
    · exact ⟨2, rfl⟩

/-- C16. For a valid UTF-8 text, the UTF-8 bytes of scalar values (none of them
zero, as in any C string), the conversion succeeds: `tags_utils_utf8_to_utf16`
gives the UTF-16BE bytes of the text, surrogate pairs included, followed by
two zero bytes.  The result is `bytes_written + 2` bytes long, its length is
even and its last two bytes are zero. -/
theorem utf8_to_utf16_of_valid (cps : List Nat)
    (h : ∀ cp ∈ cps, is_scalar_value cp ∧ cp ≠ 0) :
    g_convert (cps.flatMap utf8_encode_cp) = some (cps.flatMap utf16be_encode_cp)
      ∧ tags_utils_utf8_to_utf16 (cps.flatMap utf8_encode_cp)
          = some (cps.flatMap utf16be_encode_cp ++ [0, 0])
      ∧ (cps.flatMap utf16be_encode_cp ++ [0, 0]).length
          = (cps.flatMap utf16be_encode_cp).length + 2
      ∧ Even (cps.flatMap utf16be_encode_cp ++ [0, 0]).length
      ∧ (cps.flatMap utf16be_encode_cp ++ [0, 0]).drop
          ((cps.flatMap utf16be_encode_cp ++ [0, 0]).length - 2) = [0, 0] := by
  have hconv : g_convert (cps.flatMap utf8_encode_cp) = some (cps.flatMap utf16be_encode_cp) := by
    simp only [g_convert, utf8_decode_encode cps (fun cp hcp => (h cp hcp).1), Option.map_some']
  refine ⟨hconv, ?_, ?_, ?_, ?_⟩
  · simp only [tags_utils_utf8_to_utf16, hconv]
  · simp
  · rw [List.length_append]
    exact Even.add (utf16be_length_even cps) ⟨1, rfl⟩
  · simp

/-- C16 at the text `Aé€😀`, whose last character needs a surrogate pair. -/
theorem utf8_to_utf16_of_valid_witness :
    tags_utils_utf8_to_utf16 [0x41, 0xC3, 0xA9, 0xE2, 0x82, 0xAC, 0xF0, 0x9F, 0x98, 0x80]
      = some [0x00, 0x41, 0x00, 0xE9, 0x20, 0xAC, 0xD8, 0x3D, 0xDE, 0x00, 0, 0] :=
  (utf8_to_utf16_of_valid [0x41, 0xE9, 0x20AC, 0x1F600] (by decide)).2.1

/-! ## Text frames and the conversion -/

/-- The frame `tags_text_to_frame` builds, by the outcome of the conversion. -/
theorem text_to_frame_fields (value : GString) (id : ID3_FrameID) :
    tags_text_to_frame value id
      = { id := id
          textenc := ⟨.ID3TE_ISO8859_1, .integer 1⟩
          text := ⟨.ID3TE_UTF16,
            match tags_utils_utf8_to_utf16 value with
            | some buf => .unicode buf
            | none => .unset⟩
          description := .fresh
          imageformat := .fresh
          mimetype := .fresh
          picturetype := .fresh
          data := .fresh } := by
  cases hc : tags_utils_utf8_to_utf16 value <;>
    simp [tags_text_to_frame, tags_set_frame_field_to_unicode, hc, ID3_Frame.new,
      ID3_Frame.GetField, ID3_Frame.withField, ID3_Field.SetEncoding, ID3_Field.SetUnicode,
      ID3_Field.SetInteger, ID3_Field.fresh, ID3_TextEnc.val]

theorem text_to_frame_failed (value : GString) (id : ID3_FrameID)
    (hc : tags_utils_utf8_to_utf16 value = none) :
    tags_text_to_frame value id = unset_text_frame id := by
  rw [text_to_frame_fields, hc]
  rfl

/-- C17, as stated, fails: for a title that is not valid UTF-8 the conversion
gives nothing, and the render still attaches a title frame. -/
theorem failed_conversion_frame_attached :
    tags_utils_utf8_to_utf16 [0xFF] = none
      ∧ unset_text_frame .ID3FID_TITLE
          ∈ (gst_id3v23_mux_render_tag [(GST_TAG_TITLE, [.string [0xFF]])]).frames := by
  decide

/-- C17, amended. When the conversion of a tag's text to UTF-16 fails, the
frame for the tag is built all the same, with a text field that has the
UTF-16 encoding and no value and with the text-encoding field set to
UTF-16; for the title, artist, album and genre tags the render attaches it. -/
theorem failed_conversion_frame (tags : GstTagList) (tag : GString) (id : ID3_FrameID)
    (value : GString) (hs : tags_tag_to_string tags tag = some value)
    (hc : tags_utils_utf8_to_utf16 value = none) :
    tags_tag_to_frame tags tag id = some (unset_text_frame id)
      ∧ ((tag, id) ∈ [(GST_TAG_TITLE, ID3_FrameID.ID3FID_TITLE),
            (GST_TAG_ARTIST, ID3_FrameID.ID3FID_LEADARTIST),
            (GST_TAG_ALBUM, ID3_FrameID.ID3FID_ALBUM),
            (GST_TAG_GENRE, ID3_FrameID.ID3FID_CONTENTTYPE)] →
          unset_text_frame id ∈ (gst_id3v23_mux_render_tag tags).frames) := by
  have hf : tags_tag_to_frame tags tag id = some (unset_text_frame id) := by
    simp only [tags_tag_to_frame, hs, text_to_frame_failed value id hc]
  refine ⟨hf, fun hmem => ?_⟩
  rw [mem_render_frames]
  simp only [List.mem_cons, Prod.mk.injEq, List.mem_singleton, List.not_mem_nil, or_false] at hmem
  rcases hmem with ⟨rfl, rfl⟩ | ⟨rfl, rfl⟩ | ⟨rfl, rfl⟩ | ⟨rfl, rfl⟩
  · exact Or.inl hf
  · exact Or.inr (Or.inl hf)
  · exact Or.inr (Or.inr (Or.inl hf))
  · exact Or.inr (Or.inr (Or.inr (Or.inr (Or.inr (Or.inl hf)))))

/-- C17 at an artist that is not valid UTF-8: the artist frame is attached. -/
theorem failed_conversion_frame_witness :
    unset_text_frame .ID3FID_LEADARTIST
      ∈ (gst_id3v23_mux_render_tag [(GST_TAG_ARTIST, [.string [0xC3]])]).frames :=
  (failed_conversion_frame [(GST_TAG_ARTIST, [.string [0xC3]])] GST_TAG_ARTIST
    .ID3FID_LEADARTIST [0xC3] (by decide) (by decide)).2 (by decide)

/-- Every frame of a render that is no picture frame comes from `tags_text_to_frame`. -/
theorem render_text_frame_form (tags : GstTagList) (f : ID3_Frame)
    (hf : f ∈ (gst_id3v23_mux_render_tag tags).frames) (hid : f.id ≠ .ID3FID_PICTURE) :
    ∃ value, f = tags_text_to_frame value f.id := by
  have htext : ∀ tag id, tags_tag_to_frame tags tag id = some f →
      ∃ value, f = tags_text_to_frame value f.id := by
    intro tag id h
    have hid' := tag_to_frame_id tags tag id f h
    unfold tags_tag_to_frame at h
    split at h
    · exact absurd h (by simp)
    · simp only [Option.some.injEq] at h
      exact ⟨_, by rw [hid']; exact h.symm⟩
  have hcomp : ∀ l r id, tags_composed_tags_to_frame tags l r id = f →
      ∃ value, f = tags_text_to_frame value f.id := by
    intro l r id h
    have hid' : f.id = id := by rw [← h]; exact composed_id tags l r id
    rw [hid']
    simp only [tags_composed_tags_to_frame] at h
    split at h <;> exact ⟨_, h.symm⟩
  rcases (mem_render_frames tags f).1 hf with h | h | h | h | h | h | h | h | h | h
  · exact htext _ _ h
  · exact htext _ _ h
  · exact htext _ _ h
  · exact hcomp _ _ _ h
  · exact hcomp _ _ _ h
  · exact htext _ _ h
  · have hid' := frame_year_id _ f h
    cases hd : tags_tag_to_date tags GST_TAG_DATE with
    | none => rw [hd] at h; exact absurd h (by simp [render_frame_year])
    | some d =>
      rw [hd] at h
      simp only [render_frame_year] at h
      split at h
      · simp only [Option.some.injEq] at h
        exact ⟨_, by rw [hid']; exact h.symm⟩
      · exact absurd h (by simp)
  · have hid' := frame_date_id _ f h
    cases hd : tags_tag_to_date tags GST_TAG_DATE with
    | none => rw [hd] at h; exact absurd h (by simp [render_frame_date])
    | some d =>
      rw [hd] at h
      simp only [render_frame_date] at h
      split at h
      · simp only [Option.some.injEq] at h
        exact ⟨_, by rw [hid']; exact h.symm⟩
      · exact absurd h (by simp)
  · exact absurd (image_frame_id _ _ _ _ h) hid
  · exact absurd (image_frame_id _ _ _ _ h) hid

/-- The conversion of the UTF-8 bytes of scalar values. -/
theorem utf8_to_utf16_scalar (cps : List Nat) (h : ∀ cp ∈ cps, is_scalar_value cp) :
    tags_utils_utf8_to_utf16 (cps.flatMap utf8_encode_cp)
      = some (cps.flatMap utf16be_encode_cp ++ [0, 0]) := by
  simp only [tags_utils_utf8_to_utf16, g_convert, utf8_decode_encode cps h, Option.map_some']

/-- C18, as stated, fails: for the string of the one byte `0xFF`, which has no
UTF-16 conversion, the text field of the frame `tags_text_to_frame` builds
holds no value. -/
theorem text_frame_holds_no_conversion :
    tags_utils_utf8_to_utf16 [0xFF] = none
      ∧ (tags_text_to_frame [0xFF] .ID3FID_TITLE).text.value = .unset
      ∧ ∀ buf, (tags_text_to_frame [0xFF] .ID3FID_TITLE).text.value ≠ .unicode buf := by
  have h : (tags_text_to_frame [0xFF] .ID3FID_TITLE).text.value = .unset := by decide
  refine ⟨by decide, h, fun buf hb => ?_⟩
  rw [h] at hb
  exact ID3_FieldValue.noConfusion hb

/-- C18, amended. A frame built by `tags_text_to_frame` has the UTF-16 encoding
on its text field and UTF-16 in its text-encoding field, for every string.
Its text field holds the UTF-16 conversion of the string when the string has
one, as every valid UTF-8 text has (the UTF-16BE bytes followed by two zero
bytes), and holds no value when the conversion fails.  The title, artist,
album, genre, part-in-set, track, year and date frames of a render are all
built this way. -/
theorem text_frame_is_utf16 (value : GString) (id : ID3_FrameID) :
    (tags_text_to_frame value id).text.encoding = .ID3TE_UTF16
      ∧ (tags_text_to_frame value id).textenc.value
          = .integer ID3_TextEnc.ID3TE_UTF16.val
      ∧ (∀ buf, tags_utils_utf8_to_utf16 value = some buf →
          (tags_text_to_frame value id).text.value = .unicode buf)
      ∧ (tags_utils_utf8_to_utf16 value = none →
          (tags_text_to_frame value id).text.value = .unset)
      ∧ (∀ cps : List Nat, (∀ cp ∈ cps, is_scalar_value cp) →
          value = cps.flatMap utf8_encode_cp →
          (tags_text_to_frame value id).text.value
            = .unicode (cps.flatMap utf16be_encode_cp ++ [0, 0]))
      ∧ (∀ tags f, f ∈ (gst_id3v23_mux_render_tag tags).frames → f.id ≠ .ID3FID_PICTURE →
          (∃ v, f = tags_text_to_frame v f.id) ∧ f.text.encoding = .ID3TE_UTF16
            ∧ f.textenc.value = .integer ID3_TextEnc.ID3TE_UTF16.val) := by
  refine ⟨?_, ?_, fun buf hb => ?_, fun hn => ?_, fun cps hcps hval => ?_,
    fun tags f hf hid => ?_⟩
  · rw [text_to_frame_fields]
  · rw [text_to_frame_fields]; rfl
  · rw [text_to_frame_fields, hb]
  · rw [text_to_frame_fields, hn]
  · rw [text_to_frame_fields, hval, utf8_to_utf16_scalar cps hcps]
  · obtain ⟨v, hv⟩ := render_text_frame_form tags f hf hid
    refine ⟨⟨v, hv⟩, ?_, ?_⟩
    · rw [hv, text_to_frame_fields]
    · rw [hv, text_to_frame_fields]; rfl

/-- C18 at the text `Aé`, whose frame holds its UTF-16 form, and at the one
byte `0xC3`, whose frame holds no value. -/
theorem text_frame_is_utf16_witness :
    (tags_text_to_frame [0x41, 0xC3, 0xA9] .ID3FID_TITLE).text.value
        = .unicode [0x00, 0x41, 0x00, 0xE9, 0, 0]
      ∧ (tags_text_to_frame [0xC3] .ID3FID_ALBUM).text.value = .unset :=
  ⟨(text_frame_is_utf16 [0x41, 0xC3, 0xA9] .ID3FID_TITLE).2.2.2.2.1 [0x41, 0xE9]
      (by decide) (by decide),
   (text_frame_is_utf16 [0xC3] .ID3FID_ALBUM).2.2.2.1 (by decide)⟩

/-! ## Composed pairs, continued -/

theorem digit_count_eq_number_length (n : Nat) :
    digit_count n = tags_utils_number_length n := (number_length_eq n).symm

/-- The frame of a composed pair whose right tag is present, from the left
value the code settles on and the right value. -/
theorem composed_frame_of_values (tags : GstTagList) (left right : GString) (id : ID3_FrameID)
    (B : Nat) (hr : gst_tag_list_get_uint tags right = some B) :
    tags_composed_tags_to_frame tags left right id
      = text_frame id
          (zero_padded (max (digit_count ((gst_tag_list_get_uint tags left).getD 1))
              (digit_count B)) ((gst_tag_list_get_uint tags left).getD 1)
            ++ '/' :: zero_padded (max (digit_count ((gst_tag_list_get_uint tags left).getD 1))
              (digit_count B)) B) := by
  have hmax : ∀ a b : Nat, (if a < b then b else a) = max a b := by
    intro a b
    split <;> omega
  have hleft : (match gst_tag_list_get_uint tags left with
      | some v => v
      | none => 1) = (gst_tag_list_get_uint tags left).getD 1 := by
    cases gst_tag_list_get_uint tags left <;> rfl
  simp only [tags_composed_tags_to_frame, hr, hleft, number_length_eq, hmax, composed_text]
  apply text_to_frame_ascii
  intro c hc
  simp only [List.mem_append, List.mem_cons] at hc
  rcases hc with hc | rfl | hc
  · exact zero_padded_ascii _ _ c hc
  · decide
  · exact zero_padded_ascii _ _ c hc

theorem zero_padded_self (n : Nat) : zero_padded (digit_count n) n = decimal n := by
  simp [zero_padded]

/-- C19. When the left tag is absent and the right tag is present with value
`B`, the pair is rendered with 1 as the left value: `1` zero-padded to the
digit count of `B`, a `/`, and `B` in decimal. -/
theorem composed_left_absent (tags : GstTagList) (left right : GString) (id : ID3_FrameID)
    (B : Nat) (hl : gst_tag_list_get_uint tags left = none)
    (hr : gst_tag_list_get_uint tags right = some B) :
    tags_composed_tags_to_frame tags left right id
      = text_frame id (zero_padded (digit_count B) 1 ++ '/' :: decimal B) := by
  rw [composed_frame_of_values tags left right id B hr, hl]
  have h1 : digit_count 1 = 1 := by decide
  have hB := digit_count_pos B
  have hmax : max (digit_count ((none : Option Nat).getD 1)) (digit_count B) = digit_count B := by
    simp only [Option.getD_none, h1]
    omega
  rw [hmax, zero_padded_self]
  rfl

/-- C19 at a track count of 12 with no track number: the text is `01/12`. -/
theorem composed_left_absent_witness :
    tags_composed_tags_to_frame [(GST_TAG_TRACK_COUNT, [.uint 12])]
        GST_TAG_TRACK_NUMBER GST_TAG_TRACK_COUNT .ID3FID_TRACKNUM
      = text_frame .ID3FID_TRACKNUM "01/12".toList :=
  (composed_left_absent [(GST_TAG_TRACK_COUNT, [.uint 12])]
    GST_TAG_TRACK_NUMBER GST_TAG_TRACK_COUNT .ID3FID_TRACKNUM 12
    (by decide) (by decide)).trans (by decide)

theorem zero_padded_length (w n : Nat) (h : digit_count n ≤ w) :
    (zero_padded w n).length = w := by
  simp only [zero_padded, digit_count, List.length_append, List.length_replicate] at h ⊢
  omega

theorem zero_padded_isDigit (w n : Nat) : ∀ c ∈ zero_padded w n, c.isDigit = true := by
  intro c hc
  simp only [zero_padded, List.mem_append, List.mem_replicate] at hc
  rcases hc with ⟨_, rfl⟩ | hc
  · rfl
  · exact fmt_u_isDigit n c hc

theorem read_width_zeros (k : Nat) (ds : List Char) :
    read_width 0 (List.replicate k '0' ++ ds) = read_width 0 ds := by
  induction k with
  | zero => rfl
  | succ k ih =>
    rw [List.replicate_succ, List.cons_append]
    unfold read_width at ih ⊢
    rw [List.foldl_cons]
    exact ih

/-- Padding with zeros does not change the number the digits denote. -/
theorem parse_zero_padded (w n : Nat) : parse_decimal (zero_padded w n) = n := by
  unfold parse_decimal zero_padded
  rw [read_width_zeros, decimal_eq_fmt_u, read_width_fmt_u]

/-- C20. When both tags are present, with values `A` and `B` and `w` the
larger digit count, the text of the composed frame is `2 * w + 1` characters
long, has a `/` at index `w` and nowhere else and decimal digits at every
other index, and the parts before and after the `/` read as decimal numbers
are `A` and `B`. -/
theorem composed_text_shape (tags : GstTagList) (left right : GString) (id : ID3_FrameID)
    (A B : Nat) (hl : gst_tag_list_get_uint tags left = some A)
    (hr : gst_tag_list_get_uint tags right = some B) :
    ∃ text : List Char,
      tags_composed_tags_to_frame tags left right id = text_frame id text
        ∧ text.length = 2 * max (digit_count A) (digit_count B) + 1
        ∧ text[max (digit_count A) (digit_count B)]? = some '/'
        ∧ (∀ i, text[i]? = some '/' → i = max (digit_count A) (digit_count B))
        ∧ (∀ i c, text[i]? = some c → i ≠ max (digit_count A) (digit_count B) →
            c.isDigit = true)
        ∧ parse_decimal (text.take (max (digit_count A) (digit_count B))) = A
        ∧ parse_decimal (text.drop (max (digit_count A) (digit_count B) + 1)) = B := by
  generalize hw : max (digit_count A) (digit_count B) = w
  have hA : digit_count A ≤ w := by omega
  have hB : digit_count B ≤ w := by omega
  have hlenA := zero_padded_length w A hA
  have hlenB := zero_padded_length w B hB
  have hframe := composed_frame_of_values tags left right id B hr
  rw [hl, Option.getD_some, hw] at hframe
  have hdig : ∀ i c, (zero_padded w A ++ '/' :: zero_padded w B)[i]? = some c → i ≠ w →
      c.isDigit = true := by
    intro i c hc hne
    rcases Nat.lt_or_ge i w with hlt | hge
    · rw [List.getElem?_append_left (by omega)] at hc
      exact zero_padded_isDigit w A c (List.getElem?_mem hc)
    · rw [List.getElem?_append_right (by omega), hlenA] at hc
      obtain ⟨j, hj⟩ : ∃ j, i - w = j + 1 := ⟨i - w - 1, by omega⟩
      rw [hj, List.getElem?_cons_succ] at hc
      exact zero_padded_isDigit w B c (List.getElem?_mem hc)
  refine ⟨zero_padded w A ++ '/' :: zero_padded w B, hframe, ?_, ?_, ?_, hdig, ?_, ?_⟩
  · simp only [List.length_append, List.length_cons, hlenA, hlenB]
    omega
  · rw [List.getElem?_append_right (by omega), hlenA, Nat.sub_self, List.getElem?_cons_zero]
  · intro i hi
    by_contra hne
    exact absurd (hdig i '/' hi hne) (by decide)
  · rw [List.take_left' hlenA]
    exact parse_zero_padded w A
  · have : (zero_padded w A ++ '/' :: zero_padded w B)
        = (zero_padded w A ++ ['/']) ++ zero_padded w B := by simp
    rw [this, List.drop_left' (by simp [hlenA])]
    exact parse_zero_padded w B

/-- C20 at track 3 of 12: the text `03/12` is five characters long, has its
`/` at index 2 and reads back as 3 and 12. -/
theorem composed_text_shape_witness :
    ∃ text : List Char,
      tags_composed_tags_to_frame
          [(GST_TAG_TRACK_NUMBER, [.uint 3]), (GST_TAG_TRACK_COUNT, [.uint 12])]
          GST_TAG_TRACK_NUMBER GST_TAG_TRACK_COUNT .ID3FID_TRACKNUM
        = text_frame .ID3FID_TRACKNUM text
        ∧ text.length = 5 ∧ text[2]? = some '/'
        ∧ parse_decimal (text.take 2) = 3 ∧ parse_decimal (text.drop 3) = 12 := by
  obtain ⟨text, hf, hlen, hslash, -, -, ha, hb⟩ := composed_text_shape
    [(GST_TAG_TRACK_NUMBER, [.uint 3]), (GST_TAG_TRACK_COUNT, [.uint 12])]
    GST_TAG_TRACK_NUMBER GST_TAG_TRACK_COUNT .ID3FID_TRACKNUM 3 12 (by decide) (by decide)
  exact ⟨text, hf, hlen, hslash, ha, hb⟩

/-! ## The length of a number -/

/-- C21. For an unsigned 32-bit number `n`, `tags_utils_number_length n` is the
number of decimal digits of `n`: it is 1 for `n = 0`, and for `n > 0` it is
the one `k` with `10 ^ (k - 1) ≤ n < 10 ^ k`; it lies between 1 and 10. -/
theorem number_length_is_digit_count (n : Nat) (h32 : n < 2 ^ 32) :
    tags_utils_number_length n = digit_count n
      ∧ (n = 0 → tags_utils_number_length n = 1)
      ∧ (0 < n → 10 ^ (tags_utils_number_length n - 1) ≤ n
          ∧ n < 10 ^ tags_utils_number_length n
          ∧ ∀ k, 10 ^ (k - 1) ≤ n → n < 10 ^ k → k = tags_utils_number_length n)
      ∧ 1 ≤ tags_utils_number_length n ∧ tags_utils_number_length n ≤ 10 := by
  rw [number_length_eq]
  have hpos := digit_count_pos n
  have hchar : 0 < n → 10 ^ (digit_count n - 1) ≤ n ∧ n < 10 ^ digit_count n := by
    intro hn
    have h := (digit_count_eq_iff n (digit_count n - 1) hn).1 (by omega)
    rw [Nat.sub_add_cancel hpos] at h
    exact h
  refine ⟨rfl, ?_, ?_, hpos, ?_⟩
  · intro h0
    subst h0
    decide
  · intro hn
    refine ⟨(hchar hn).1, (hchar hn).2, ?_⟩
    intro k hk1 hk2
    have hk : 0 < k := by
      rcases Nat.eq_zero_or_pos k with h0 | h0
      · subst h0
        simp at hk2
        omega
      · exact h0
    have h := (digit_count_eq_iff n (k - 1) hn).2
      ⟨hk1, by rw [Nat.sub_add_cancel hk]; exact hk2⟩
    omega
  · rcases Nat.eq_zero_or_pos n with h0 | hn
    · subst h0
      decide
    · by_contra hgt
      have hlow := (hchar hn).1
      have hmono : 10 ^ 10 ≤ 10 ^ (digit_count n - 1) :=
        Nat.pow_le_pow_right (by decide) (by omega)
      have h10 : (2 : Nat) ^ 32 < 10 ^ 10 := by norm_num
      omega

/-- C21 at 0, 9, 10 and the largest 32-bit number. -/
theorem number_length_is_digit_count_witness :
    tags_utils_number_length 0 = 1 ∧ tags_utils_number_length 9 = 1
      ∧ tags_utils_number_length 10 = 2 ∧ tags_utils_number_length 4294967295 = 10 :=
  ⟨(number_length_is_digit_count 0 (by decide)).2.1 rfl,
   ((number_length_is_digit_count 9 (by decide)).2.2.1 (by decide)).2.2 1
      (by decide) (by decide) |>.symm,
   ((number_length_is_digit_count 10 (by decide)).2.2.1 (by decide)).2.2 2
      (by decide) (by decide) |>.symm,
   ((number_length_is_digit_count 4294967295 (by decide)).2.2.1 (by decide)).2.2 10
      (by decide) (by decide) |>.symm⟩

end Id3v23Mux
